import Mathlib

/-!
# Shallow embedding of the PropChain cross-chain bridge contracts

This file embeds the multi-signature bridge request lifecycle of the
PropChain repository into Lean: the standalone bridge contract
(`contracts/bridge/src/lib.rs`, ink storage struct `PropertyBridge`) and the
bridge portion of the asset-token ledger
(`contracts/property-token/src/lib.rs`, ink storage struct `PropertyToken`).

Modelling conventions:
* `AccountId` (32 bytes) is modelled as `Nat`; the zero address
  `AccountId::from([0u8; 32])` is `0`.
* `u8`/`u32`/`u64`/`u128` fields are modelled as `Nat`; arithmetic on
  counters uses plain `Nat` arithmetic (checked arithmetic in the source,
  which never wraps).  Where the source performs a truncating `as u8` cast
  the model takes `% 256`.
* `ink::storage::Mapping` is modelled as an association list with
  first-match lookup and replace-or-append insertion.
* Each `#[ink(message)]` taking `&mut self` becomes a function
  `State → env-args → call-args → Except Error ret × State`: the returned
  state is the storage exactly as the method body left it when it
  returned, so mutations performed before an early `return Err(..)` are
  kept, mirroring the `&mut self` bodies of the source.
* `self.env().caller()`, `block_number()` and `block_timestamp()` become
  explicit leading arguments.
* Event emission carries no state and is not modelled.
-/

/-- Account identifier (source: `ink::primitives::AccountId`, 32 bytes);
the zero address is modelled as `0`. -/
abbrev AccountId := Nat

/-- Token identifier (source: `pub type TokenId = u64`). -/
abbrev TokenId := Nat

/-- Chain identifier (source: `pub type ChainId = u64`). -/
abbrev ChainId := Nat

/-- 32-byte transaction hash (source: `ink::primitives::Hash`), modelled
as the number it represents (see `generate_transaction_hash`). -/
abbrev BridgeHash := Nat

deriving instance DecidableEq for Except

/-- First-match lookup in an association list, modelling
`ink::storage::Mapping::get`. -/
def lookupM {α β : Type} [DecidableEq α] : List (α × β) → α → Option β
  | [], _ => none
  | (k, v) :: rest, key => if key = k then some v else lookupM rest key

/-- Replace-or-append insertion in an association list, modelling
`ink::storage::Mapping::insert`. -/
def insertM {α β : Type} [DecidableEq α] : List (α × β) → α → β → List (α × β)
  | [], key, v => [(key, v)]
  | (k, w) :: rest, key, v =>
      if key = k then (key, v) :: rest else (k, w) :: insertM rest key v

/-- Key removal in an association list, modelling
`ink::storage::Mapping::remove`. -/
def removeM {α β : Type} [DecidableEq α] : List (α × β) → α → List (α × β)
  | [], _ => []
  | (k, w) :: rest, key =>
      if key = k then removeM rest key else (k, w) :: removeM rest key

/-- Source: `propchain_traits::BridgeOperationStatus`. -/
inductive BridgeOperationStatus
  | None
  | Pending
  | Locked
  | InTransit
  | Completed
  | Failed
  | Recovering
  | Expired
  deriving DecidableEq, Repr

/-- Source: `propchain_traits::PropertyMetadata`. -/
structure PropertyMetadata where
  location : String
  size : Nat
  legal_description : String
  valuation : Nat
  documents_url : String
  deriving DecidableEq, Repr

/-- Source: `propchain_traits::PropertyInfo`. -/
structure PropertyInfo where
  id : Nat
  owner : AccountId
  metadata : PropertyMetadata
  registered_at : Nat
  deriving DecidableEq, Repr

/-- Source: `propchain_traits::MultisigBridgeRequest`. -/
structure MultisigBridgeRequest where
  request_id : Nat
  token_id : TokenId
  source_chain : ChainId
  destination_chain : ChainId
  sender : AccountId
  recipient : AccountId
  required_signatures : Nat
  signatures : List AccountId
  created_at : Nat
  expires_at : Option Nat
  status : BridgeOperationStatus
  metadata : PropertyMetadata
  deriving DecidableEq, Repr

/-- Source: `propchain_traits::BridgeTransaction`. -/
structure BridgeTransaction where
  transaction_id : Nat
  token_id : TokenId
  source_chain : ChainId
  destination_chain : ChainId
  sender : AccountId
  recipient : AccountId
  transaction_hash : BridgeHash
  timestamp : Nat
  gas_used : Nat
  status : BridgeOperationStatus
  metadata : PropertyMetadata
  deriving DecidableEq, Repr

/-- Source: `propchain_traits::BridgeConfig`. -/
structure BridgeConfig where
  supported_chains : List ChainId
  min_signatures_required : Nat
  max_signatures_required : Nat
  default_timeout_blocks : Nat
  gas_limit_per_bridge : Nat
  emergency_pause : Bool
  metadata_preservation : Bool
  deriving DecidableEq, Repr

/-- Source: `propchain_traits::ChainBridgeInfo`. -/
structure ChainBridgeInfo where
  chain_id : ChainId
  chain_name : String
  bridge_contract_address : Option AccountId
  is_active : Bool
  gas_multiplier : Nat
  confirmation_blocks : Nat
  supported_tokens : List TokenId
  deriving DecidableEq, Repr

/-- Source: `propchain_traits::BridgeMonitoringInfo`. -/
structure BridgeMonitoringInfo where
  bridge_request_id : Nat
  token_id : TokenId
  source_chain : ChainId
  destination_chain : ChainId
  status : BridgeOperationStatus
  created_at : Nat
  expires_at : Option Nat
  signatures_collected : Nat
  signatures_required : Nat
  error_message : Option String
  deriving DecidableEq, Repr

/-- Source: `propchain_traits::RecoveryAction`. -/
inductive RecoveryAction
  | UnlockToken
  | RefundGas
  | RetryBridge
  | CancelBridge
  deriving DecidableEq, Repr

/-- Shared hash generator (source: `generate_transaction_hash` in the bridge
contract and `generate_bridge_transaction_hash` in the property-token
contract; the two bodies are identical).  The source SCALE-encodes the tuple
`(request_id, token_id, source_chain, destination_chain, sender, recipient,
block_timestamp)` and copies the first 32 bytes of the encoding into the
hash.  The four leading `u64` fields occupy exactly those 32 bytes
(little-endian, 8 bytes each), so the digest is determined by them alone and
`sender`, `recipient` and the timestamp are truncated away.  Modelled as the
base-`2^64` packing of the four leading fields. -/
def generate_transaction_hash (request : MultisigBridgeRequest)
    (_block_timestamp : Nat) : BridgeHash :=
  request.request_id % 2 ^ 64
    + request.token_id % 2 ^ 64 * 2 ^ 64
    + request.source_chain % 2 ^ 64 * 2 ^ 128
    + request.destination_chain % 2 ^ 64 * 2 ^ 192

/-- The lazy expiry test shared by both `sign_bridge_request` bodies
(source: `if let Some(expires_at) = request.expires_at { if block_number >
expires_at { ... } }`). -/
def MultisigBridgeRequest.expired (request : MultisigBridgeRequest)
    (block_number : Nat) : Bool :=
  match request.expires_at with
  | some expires_at => block_number > expires_at
  | none => false

/-- Source: `bridge::Error` in `contracts/bridge/src/lib.rs`. -/
inductive BridgeError
  | Unauthorized
  | TokenNotFound
  | InvalidChain
  | BridgeNotSupported
  | InsufficientSignatures
  | RequestExpired
  | AlreadySigned
  | InvalidRequest
  | BridgePaused
  | InvalidMetadata
  | DuplicateRequest
  | GasLimitExceeded
  deriving DecidableEq, Repr

/-- Storage of the standalone bridge contract (source: `#[ink(storage)]
struct PropertyBridge` in `contracts/bridge/src/lib.rs`). -/
structure PropertyBridge where
  config : BridgeConfig
  bridge_requests : List (Nat × MultisigBridgeRequest)
  bridge_history : List (AccountId × List BridgeTransaction)
  chain_info : List (ChainId × ChainBridgeInfo)
  verified_transactions : List (BridgeHash × Bool)
  bridge_operators : List AccountId
  request_counter : Nat
  transaction_counter : Nat
  admin : AccountId
  deriving DecidableEq, Repr

/-- Source: `PropertyBridge::new`. -/
def PropertyBridge.new (caller : AccountId) (supported_chains : List ChainId)
    (min_signatures max_signatures default_timeout gas_limit : Nat) :
    PropertyBridge :=
  { config :=
      { supported_chains := supported_chains
        min_signatures_required := min_signatures
        max_signatures_required := max_signatures
        default_timeout_blocks := default_timeout
        gas_limit_per_bridge := gas_limit
        emergency_pause := false
        metadata_preservation := true }
    bridge_requests := []
    bridge_history := []
    chain_info := supported_chains.foldl
      (fun m chain_id => insertM m chain_id
        { chain_id := chain_id
          chain_name := "Chain-" ++ toString chain_id
          bridge_contract_address := none
          is_active := true
          gas_multiplier := 100
          confirmation_blocks := 6
          supported_tokens := [] }) []
    verified_transactions := []
    bridge_operators := [caller]
    request_counter := 0
    transaction_counter := 0
    admin := caller }

/-- Source: `PropertyBridge::is_authorized_for_token` — a stub that
ignores its arguments and always returns `true` ("For now, we'll assume
any account can initiate a bridge"). -/
def PropertyBridge.is_authorized_for_token (_s : PropertyBridge)
    (_account : AccountId) (_token_id : TokenId) : Bool :=
  true

/-- Source: `PropertyBridge::get_current_chain_id` — a stub returning `1`. -/
def PropertyBridge.get_current_chain_id (_s : PropertyBridge) : ChainId :=
  1

/-- Source: `PropertyBridge::estimate_gas_usage`. -/
def PropertyBridge.estimate_gas_usage (_s : PropertyBridge)
    (request : MultisigBridgeRequest) : Nat :=
  100000 + request.metadata.legal_description.length * 100

/-- Source: `PropertyBridge::initiate_bridge_multisig`.  Note: there is no
duplicate-active-request check in this contract. -/
def PropertyBridge.initiate_bridge_multisig (s : PropertyBridge)
    (caller : AccountId) (block_number : Nat) (token_id : TokenId)
    (destination_chain : ChainId) (recipient : AccountId)
    (required_signatures : Nat) (timeout_blocks : Option Nat)
    (metadata : PropertyMetadata) : Except BridgeError Nat × PropertyBridge :=
  if s.config.emergency_pause then
    (.error .BridgePaused, s)
  else if destination_chain ∉ s.config.supported_chains then
    (.error .InvalidChain, s)
  else if required_signatures < s.config.min_signatures_required
      ∨ required_signatures > s.config.max_signatures_required then
    (.error .InsufficientSignatures, s)
  else if ¬ s.is_authorized_for_token caller token_id then
    (.error .Unauthorized, s)
  else
    let request_id := s.request_counter + 1
    let expires_at := timeout_blocks.map (fun blocks => block_number + blocks)
    let request : MultisigBridgeRequest :=
      { request_id := request_id
        token_id := token_id
        source_chain := s.get_current_chain_id
        destination_chain := destination_chain
        sender := caller
        recipient := recipient
        required_signatures := required_signatures
        signatures := []
        created_at := block_number
        expires_at := expires_at
        status := .Pending
        metadata := metadata }
    (.ok request_id,
      { s with
          request_counter := request_id
          bridge_requests := insertM s.bridge_requests request_id request })

/-- Source: `PropertyBridge::sign_bridge_request`.  Note: the status of the
request is never inspected, and the expiry error does not persist any
status change. -/
def PropertyBridge.sign_bridge_request (s : PropertyBridge)
    (caller : AccountId) (block_number : Nat) (request_id : Nat)
    (approve : Bool) : Except BridgeError Unit × PropertyBridge :=
  if caller ∉ s.bridge_operators then
    (.error .Unauthorized, s)
  else
    match lookupM s.bridge_requests request_id with
    | none => (.error .InvalidRequest, s)
    | some request =>
      if request.expired block_number then
        (.error .RequestExpired, s)
      else if caller ∈ request.signatures then
        (.error .AlreadySigned, s)
      else
        let signatures := request.signatures ++ [caller]
        let status :=
          if ¬ approve then BridgeOperationStatus.Failed
          else if request.required_signatures ≤ signatures.length then
            BridgeOperationStatus.Locked
          else request.status
        let request' := { request with signatures := signatures, status := status }
        (.ok (),
          { s with bridge_requests := insertM s.bridge_requests request_id request' })

/-- Source: `PropertyBridge::execute_bridge`. -/
def PropertyBridge.execute_bridge (s : PropertyBridge) (caller : AccountId)
    (block_timestamp : Nat) (request_id : Nat) :
    Except BridgeError Unit × PropertyBridge :=
  if caller ∉ s.bridge_operators then
    (.error .Unauthorized, s)
  else
    match lookupM s.bridge_requests request_id with
    | none => (.error .InvalidRequest, s)
    | some request =>
      if request.status ≠ BridgeOperationStatus.Locked then
        (.error .InvalidRequest, s)
      else if request.signatures.length < request.required_signatures then
        (.error .InsufficientSignatures, s)
      else
        let transaction_hash := generate_transaction_hash request block_timestamp
        let transaction_counter := s.transaction_counter + 1
        let transaction : BridgeTransaction :=
          { transaction_id := transaction_counter
            token_id := request.token_id
            source_chain := request.source_chain
            destination_chain := request.destination_chain
            sender := request.sender
            recipient := request.recipient
            transaction_hash := transaction_hash
            timestamp := block_timestamp
            gas_used := s.estimate_gas_usage request
            status := .InTransit
            metadata := request.metadata }
        let request' := { request with status := BridgeOperationStatus.Completed }
        let history := (lookupM s.bridge_history request.sender).getD []
        (.ok (),
          { s with
              transaction_counter := transaction_counter
              bridge_requests := insertM s.bridge_requests request_id request'
              verified_transactions :=
                insertM s.verified_transactions transaction_hash true
              bridge_history :=
                insertM s.bridge_history request.sender (history ++ [transaction]) })

/-- Source: `PropertyBridge::recover_failed_bridge`.  `UnlockToken` and
`RefundGas` are comment-only stubs in this contract. -/
def PropertyBridge.recover_failed_bridge (s : PropertyBridge)
    (caller : AccountId) (request_id : Nat)
    (recovery_action : RecoveryAction) :
    Except BridgeError Unit × PropertyBridge :=
  if caller ≠ s.admin then
    (.error .Unauthorized, s)
  else
    match lookupM s.bridge_requests request_id with
    | none => (.error .InvalidRequest, s)
    | some request =>
      if request.status ≠ BridgeOperationStatus.Failed
          ∧ request.status ≠ BridgeOperationStatus.Expired then
        (.error .InvalidRequest, s)
      else
        let request' :=
          match recovery_action with
          | .UnlockToken => request
          | .RefundGas => request
          | .RetryBridge =>
              { request with status := BridgeOperationStatus.Pending, signatures := [] }
          | .CancelBridge =>
              { request with status := BridgeOperationStatus.Failed }
        (.ok (),
          { s with bridge_requests := insertM s.bridge_requests request_id request' })

/-- Source: `PropertyBridge::monitor_bridge_status`. -/
def PropertyBridge.monitor_bridge_status (s : PropertyBridge)
    (request_id : Nat) : Option BridgeMonitoringInfo :=
  (lookupM s.bridge_requests request_id).map (fun request =>
    { bridge_request_id := request.request_id
      token_id := request.token_id
      source_chain := request.source_chain
      destination_chain := request.destination_chain
      status := request.status
      created_at := request.created_at
      expires_at := request.expires_at
      signatures_collected := request.signatures.length % 256
      signatures_required := request.required_signatures
      error_message := none })

/-- Source: `PropertyBridge::verify_bridge_transaction` (the
`source_chain` argument is unused in the source). -/
def PropertyBridge.verify_bridge_transaction (s : PropertyBridge)
    (transaction_hash : BridgeHash) (_source_chain : ChainId) : Bool :=
  (lookupM s.verified_transactions transaction_hash).getD false

/-- Source: `PropertyBridge::get_bridge_history`. -/
def PropertyBridge.get_bridge_history (s : PropertyBridge)
    (account : AccountId) : List BridgeTransaction :=
  (lookupM s.bridge_history account).getD []

/-- Source: `PropertyBridge::add_bridge_operator`. -/
def PropertyBridge.add_bridge_operator (s : PropertyBridge)
    (caller : AccountId) (operator : AccountId) :
    Except BridgeError Unit × PropertyBridge :=
  if caller ≠ s.admin then
    (.error .Unauthorized, s)
  else if operator ∈ s.bridge_operators then
    (.ok (), s)
  else
    (.ok (), { s with bridge_operators := s.bridge_operators ++ [operator] })

/-- Source: `property_token::Error` in `contracts/property-token/src/lib.rs`. -/
inductive TokenError
  | TokenNotFound
  | Unauthorized
  | PropertyNotFound
  | InvalidMetadata
  | DocumentNotFound
  | ComplianceFailed
  | BridgeNotSupported
  | InvalidChain
  | BridgeLocked
  | InsufficientSignatures
  | RequestExpired
  | InvalidRequest
  | BridgePaused
  | GasLimitExceeded
  | MetadataCorruption
  | InvalidBridgeOperator
  | DuplicateBridgeRequest
  | BridgeTimeout
  | AlreadySigned
  deriving DecidableEq, Repr

/-- Source: `property_token::ComplianceInfo`. -/
structure ComplianceInfo where
  verified : Bool
  verification_date : Nat
  verifier : AccountId
  compliance_type : String
  deriving DecidableEq, Repr

/-- Source: `property_token::OwnershipTransfer`. -/
structure OwnershipTransfer where
  from_acc : AccountId
  to_acc : AccountId
  timestamp : Nat
  transaction_hash : BridgeHash
  deriving DecidableEq, Repr

/-- Source: `property_token::DocumentInfo`. -/
structure DocumentInfo where
  document_hash : BridgeHash
  document_type : String
  upload_date : Nat
  uploader : AccountId
  deriving DecidableEq, Repr

/-- Source: `property_token::BridgingStatus`. -/
inductive BridgingStatus
  | Locked
  | Pending
  | InTransit
  | Completed
  | Failed
  | Recovering
  | Expired
  deriving DecidableEq, Repr

/-- Source: `property_token::BridgedTokenInfo`. -/
structure BridgedTokenInfo where
  original_chain : ChainId
  original_token_id : TokenId
  destination_chain : ChainId
  destination_token_id : TokenId
  bridged_at : Nat
  status : BridgingStatus
  deriving DecidableEq, Repr

/-- The mint-side ownership-history fingerprint (source: the inline
truncated SCALE encoding of `(recipient, token_id)` used in
`register_property_with_token` and `receive_bridged_token`; the 32-byte
account fills the whole 32-byte buffer, so the digest is the recipient
account alone). -/
def mint_history_hash (recipient : AccountId) (_token_id : TokenId) : BridgeHash :=
  recipient % 2 ^ 256

/-- Storage of the asset-token ledger (source: `#[ink(storage)] struct
PropertyToken` in `contracts/property-token/src/lib.rs`).  The ERC-1155
`operators` mapping is named `operators_map` here to avoid shadowing. -/
structure PropertyToken where
  token_owner : List (TokenId × AccountId)
  owner_token_count : List (AccountId × Nat)
  token_approvals : List (TokenId × AccountId)
  operator_approvals : List ((AccountId × AccountId) × Bool)
  balances : List ((AccountId × TokenId) × Nat)
  operators_map : List ((AccountId × AccountId) × Bool)
  token_properties : List (TokenId × PropertyInfo)
  property_tokens : List (Nat × TokenId)
  ownership_history : List (TokenId × List OwnershipTransfer)
  compliance_flags : List (TokenId × ComplianceInfo)
  legal_documents : List (TokenId × List DocumentInfo)
  bridged_tokens : List ((ChainId × TokenId) × BridgedTokenInfo)
  bridge_operators : List AccountId
  bridge_requests : List (Nat × MultisigBridgeRequest)
  bridge_transactions : List (AccountId × List BridgeTransaction)
  bridge_config : BridgeConfig
  verified_bridge_hashes : List (BridgeHash × Bool)
  bridge_request_counter : Nat
  total_supply : Nat
  token_counter : Nat
  admin : AccountId
  deriving DecidableEq, Repr

/-- Source: `PropertyToken::new`. -/
def PropertyToken.new (caller : AccountId) : PropertyToken :=
  { token_owner := []
    owner_token_count := []
    token_approvals := []
    operator_approvals := []
    balances := []
    operators_map := []
    token_properties := []
    property_tokens := []
    ownership_history := []
    compliance_flags := []
    legal_documents := []
    bridged_tokens := []
    bridge_operators := [caller]
    bridge_requests := []
    bridge_transactions := []
    bridge_config :=
      { supported_chains := [1, 2, 3]
        min_signatures_required := 2
        max_signatures_required := 5
        default_timeout_blocks := 100
        gas_limit_per_bridge := 500000
        emergency_pause := false
        metadata_preservation := true }
    verified_bridge_hashes := []
    bridge_request_counter := 0
    total_supply := 0
    token_counter := 0
    admin := caller }

/-- Source: `PropertyToken::add_token_to_owner` (always returns `Ok`). -/
def PropertyToken.add_token_to_owner (s : PropertyToken) (to_acc : AccountId)
    (_token_id : TokenId) : PropertyToken :=
  let count := (lookupM s.owner_token_count to_acc).getD 0
  { s with owner_token_count := insertM s.owner_token_count to_acc (count + 1) }

/-- Source: `PropertyToken::remove_token_from_owner`. -/
def PropertyToken.remove_token_from_owner (s : PropertyToken)
    (from_acc : AccountId) (_token_id : TokenId) :
    Except TokenError PropertyToken :=
  let count := (lookupM s.owner_token_count from_acc).getD 0
  if count = 0 then .error .TokenNotFound
  else .ok { s with owner_token_count := insertM s.owner_token_count from_acc (count - 1) }

/-- Source: `PropertyToken::has_pending_bridge_request` — a linear scan of
request ids `1 ..= bridge_request_counter` for one whose `token_id` matches
and whose status is `Pending` or `Locked`. -/
def PropertyToken.has_pending_bridge_request (s : PropertyToken)
    (token_id : TokenId) : Bool :=
  (List.range s.bridge_request_counter).any (fun i =>
    match lookupM s.bridge_requests (i + 1) with
    | some request =>
        request.token_id = token_id
          ∧ (request.status = BridgeOperationStatus.Pending
              ∨ request.status = BridgeOperationStatus.Locked)
    | none => false)

/-- Source: `PropertyToken::register_property_with_token`. -/
def PropertyToken.register_property_with_token (s : PropertyToken)
    (caller : AccountId) (block_timestamp : Nat)
    (metadata : PropertyMetadata) : Except TokenError TokenId × PropertyToken :=
  let token_id := s.token_counter + 1
  let property_info : PropertyInfo :=
    { id := token_id
      owner := caller
      metadata := metadata
      registered_at := block_timestamp }
  let initial_transfer : OwnershipTransfer :=
    { from_acc := 0
      to_acc := caller
      timestamp := block_timestamp
      transaction_hash := mint_history_hash caller token_id }
  let compliance_info : ComplianceInfo :=
    { verified := false
      verification_date := 0
      verifier := 0
      compliance_type := "KYC" }
  let s1 := { s with
    token_counter := token_id
    token_owner := insertM s.token_owner token_id caller }
  let s2 := s1.add_token_to_owner caller token_id
  (.ok token_id,
    { s2 with
        balances := insertM s2.balances (caller, token_id) 1
        token_properties := insertM s2.token_properties token_id property_info
        property_tokens := insertM s2.property_tokens token_id token_id
        ownership_history := insertM s2.ownership_history token_id [initial_transfer]
        compliance_flags := insertM s2.compliance_flags token_id compliance_info
        legal_documents := insertM s2.legal_documents token_id []
        total_supply := s2.total_supply + 1 })

/-- Source: `PropertyToken::verify_compliance`. -/
def PropertyToken.verify_compliance (s : PropertyToken) (caller : AccountId)
    (block_timestamp : Nat) (token_id : TokenId)
    (verification_status : Bool) : Except TokenError Unit × PropertyToken :=
  if caller ≠ s.admin ∧ caller ∉ s.bridge_operators then
    (.error .Unauthorized, s)
  else
    match lookupM s.compliance_flags token_id with
    | none => (.error .TokenNotFound, s)
    | some compliance_info =>
      let compliance_info' := { compliance_info with
        verified := verification_status
        verification_date := block_timestamp
        verifier := caller }
      (.ok (),
        { s with compliance_flags := insertM s.compliance_flags token_id compliance_info' })

/-- Source: `PropertyToken::initiate_bridge_multisig`.  Note: the request
counter is incremented before the `token_properties` lookup, so a
`PropertyNotFound` failure leaves the counter incremented. -/
def PropertyToken.initiate_bridge_multisig (s : PropertyToken)
    (caller : AccountId) (block_number : Nat) (token_id : TokenId)
    (destination_chain : ChainId) (recipient : AccountId)
    (required_signatures : Nat) (timeout_blocks : Option Nat) :
    Except TokenError Nat × PropertyToken :=
  match lookupM s.token_owner token_id with
  | none => (.error .TokenNotFound, s)
  | some token_owner =>
    if token_owner ≠ caller then
      (.error .Unauthorized, s)
    else if s.bridge_config.emergency_pause then
      (.error .BridgePaused, s)
    else if destination_chain ∉ s.bridge_config.supported_chains then
      (.error .InvalidChain, s)
    else
      match lookupM s.compliance_flags token_id with
      | none => (.error .ComplianceFailed, s)
      | some compliance_info =>
        if ¬ compliance_info.verified then
          (.error .ComplianceFailed, s)
        else if required_signatures < s.bridge_config.min_signatures_required
            ∨ required_signatures > s.bridge_config.max_signatures_required then
          (.error .InsufficientSignatures, s)
        else if s.has_pending_bridge_request token_id then
          (.error .DuplicateBridgeRequest, s)
        else
          let request_id := s.bridge_request_counter + 1
          let s1 := { s with bridge_request_counter := request_id }
          match lookupM s1.token_properties token_id with
          | none => (.error .PropertyNotFound, s1)
          | some property_info =>
            let request : MultisigBridgeRequest :=
              { request_id := request_id
                token_id := token_id
                source_chain := 1
                destination_chain := destination_chain
                sender := caller
                recipient := recipient
                required_signatures := required_signatures
                signatures := []
                created_at := block_number
                expires_at := timeout_blocks.map (fun blocks => block_number + blocks)
                status := .Pending
                metadata := property_info.metadata }
            (.ok request_id,
              { s1 with bridge_requests := insertM s1.bridge_requests request_id request })

/-- Source: `PropertyToken::sign_bridge_request`.  Note: the expiry branch
persists `status = Expired` before returning `RequestExpired`; the status
of the request is otherwise never inspected; reaching the quorum locks the
token by zeroing the owner balance and assigning the zero address. -/
def PropertyToken.sign_bridge_request (s : PropertyToken) (caller : AccountId)
    (block_number : Nat) (request_id : Nat) (approve : Bool) :
    Except TokenError Unit × PropertyToken :=
  if caller ∉ s.bridge_operators then
    (.error .Unauthorized, s)
  else
    match lookupM s.bridge_requests request_id with
    | none => (.error .InvalidRequest, s)
    | some request =>
      if request.expired block_number then
        let request' := { request with status := BridgeOperationStatus.Expired }
        (.error .RequestExpired,
          { s with bridge_requests := insertM s.bridge_requests request_id request' })
      else if caller ∈ request.signatures then
        (.error .AlreadySigned, s)
      else
        let signatures := request.signatures ++ [caller]
        if ¬ approve then
          let request' := { request with
            signatures := signatures, status := BridgeOperationStatus.Failed }
          (.ok (),
            { s with bridge_requests := insertM s.bridge_requests request_id request' })
        else if request.required_signatures ≤ signatures.length then
          match lookupM s.token_owner request.token_id with
          | none => (.error .TokenNotFound, s)
          | some token_owner =>
            let request' := { request with
              signatures := signatures, status := BridgeOperationStatus.Locked }
            (.ok (),
              { s with
                  balances := insertM s.balances (token_owner, request.token_id) 0
                  token_owner := insertM s.token_owner request.token_id 0
                  bridge_requests := insertM s.bridge_requests request_id request' })
        else
          let request' := { request with signatures := signatures }
          (.ok (),
            { s with bridge_requests := insertM s.bridge_requests request_id request' })

/-- Source: `PropertyToken::estimate_bridge_gas_usage`. -/
def PropertyToken.estimate_bridge_gas_usage (_s : PropertyToken)
    (request : MultisigBridgeRequest) : Nat :=
  100000 + request.metadata.legal_description.length * 100
    + request.required_signatures * 5000

/-- Source: `PropertyToken::execute_bridge`.  Note: the stored
`transaction_id` reuses `bridge_request_counter` (there is no separate
transaction counter in this contract). -/
def PropertyToken.execute_bridge (s : PropertyToken) (caller : AccountId)
    (block_timestamp : Nat) (request_id : Nat) :
    Except TokenError Unit × PropertyToken :=
  if caller ∉ s.bridge_operators then
    (.error .Unauthorized, s)
  else
    match lookupM s.bridge_requests request_id with
    | none => (.error .InvalidRequest, s)
    | some request =>
      if request.status ≠ BridgeOperationStatus.Locked then
        (.error .InvalidRequest, s)
      else if request.signatures.length < request.required_signatures then
        (.error .InsufficientSignatures, s)
      else
        let transaction_hash := generate_transaction_hash request block_timestamp
        let transaction : BridgeTransaction :=
          { transaction_id := s.bridge_request_counter
            token_id := request.token_id
            source_chain := request.source_chain
            destination_chain := request.destination_chain
            sender := request.sender
            recipient := request.recipient
            transaction_hash := transaction_hash
            timestamp := block_timestamp
            gas_used := s.estimate_bridge_gas_usage request
            status := .InTransit
            metadata := request.metadata }
        let request' := { request with status := BridgeOperationStatus.Completed }
        let history := (lookupM s.bridge_transactions request.sender).getD []
        let bridged_info : BridgedTokenInfo :=
          { original_chain := request.source_chain
            original_token_id := request.token_id
            destination_chain := request.destination_chain
            destination_token_id := request.token_id
            bridged_at := block_timestamp
            status := .InTransit }
        (.ok (),
          { s with
              bridge_requests := insertM s.bridge_requests request_id request'
              verified_bridge_hashes :=
                insertM s.verified_bridge_hashes transaction_hash true
              bridge_transactions :=
                insertM s.bridge_transactions request.sender (history ++ [transaction])
              bridged_tokens := insertM s.bridged_tokens
                (request.destination_chain, request.token_id) bridged_info })

/-- Source: `PropertyToken::receive_bridged_token`.  Note: the verified
hash is only read, never consumed or removed. -/
def PropertyToken.receive_bridged_token (s : PropertyToken)
    (caller : AccountId) (block_timestamp : Nat) (source_chain : ChainId)
    (original_token_id : TokenId) (recipient : AccountId)
    (metadata : PropertyMetadata) (transaction_hash : BridgeHash) :
    Except TokenError TokenId × PropertyToken :=
  if caller ∉ s.bridge_operators then
    (.error .Unauthorized, s)
  else if ¬ (lookupM s.verified_bridge_hashes transaction_hash).getD false then
    (.error .InvalidRequest, s)
  else
    let new_token_id := s.token_counter + 1
    let property_info : PropertyInfo :=
      { id := new_token_id
        owner := recipient
        metadata := metadata
        registered_at := block_timestamp }
    let initial_transfer : OwnershipTransfer :=
      { from_acc := 0
        to_acc := recipient
        timestamp := block_timestamp
        transaction_hash := mint_history_hash recipient new_token_id }
    let compliance_info : ComplianceInfo :=
      { verified := true
        verification_date := block_timestamp
        verifier := caller
        compliance_type := "Bridge" }
    let s1 := { s with
      token_counter := new_token_id
      token_properties := insertM s.token_properties new_token_id property_info
      token_owner := insertM s.token_owner new_token_id recipient }
    let s2 := s1.add_token_to_owner recipient new_token_id
    let s3 := { s2 with
      balances := insertM s2.balances (recipient, new_token_id) 1
      ownership_history := insertM s2.ownership_history new_token_id [initial_transfer]
      compliance_flags := insertM s2.compliance_flags new_token_id compliance_info
      legal_documents := insertM s2.legal_documents new_token_id []
      total_supply := s2.total_supply + 1 }
    let s4 :=
      match lookupM s3.bridged_tokens (source_chain, original_token_id) with
      | some bridged_info =>
          { s3 with bridged_tokens := (insertM s3.bridged_tokens
              (source_chain, original_token_id)
              { bridged_info with
                  status := BridgingStatus.Completed
                  destination_token_id := new_token_id }) }
      | none => s3
    (.ok new_token_id, s4)

/-- Source: `PropertyToken::burn_bridged_token`. -/
def PropertyToken.burn_bridged_token (s : PropertyToken) (caller : AccountId)
    (token_id : TokenId) (destination_chain : ChainId)
    (_recipient : AccountId) : Except TokenError Unit × PropertyToken :=
  match lookupM s.token_owner token_id with
  | none => (.error .TokenNotFound, s)
  | some token_owner =>
    if token_owner ≠ caller then
      (.error .Unauthorized, s)
    else
      match lookupM s.bridged_tokens (destination_chain, token_id) with
      | none => (.error .BridgeNotSupported, s)
      | some bridged_info =>
        if bridged_info.status ≠ BridgingStatus.Completed then
          (.error .InvalidRequest, s)
        else
          match s.remove_token_from_owner caller token_id with
          | .error e => (.error e, s)
          | .ok s1 =>
            let s2 := { s1 with
              token_owner := removeM s1.token_owner token_id
              balances := insertM s1.balances (caller, token_id) 0
              total_supply := s1.total_supply - 1 }
            (.ok (),
              { s2 with bridged_tokens := (insertM s2.bridged_tokens
                  (destination_chain, token_id)
                  { bridged_info with status := BridgingStatus.Locked }) })

/-- Source: `PropertyToken::recover_failed_bridge`. -/
def PropertyToken.recover_failed_bridge (s : PropertyToken)
    (caller : AccountId) (request_id : Nat)
    (recovery_action : RecoveryAction) :
    Except TokenError Unit × PropertyToken :=
  if caller ≠ s.admin then
    (.error .Unauthorized, s)
  else
    match lookupM s.bridge_requests request_id with
    | none => (.error .InvalidRequest, s)
    | some request =>
      if request.status ≠ BridgeOperationStatus.Failed
          ∧ request.status ≠ BridgeOperationStatus.Expired then
        (.error .InvalidRequest, s)
      else
        let restore := fun (st : PropertyToken) =>
          match lookupM st.token_owner request.token_id with
          | some token_owner =>
            if token_owner = 0 then
              let st1 := { st with
                token_owner := insertM st.token_owner request.token_id request.sender
                balances := insertM st.balances (request.sender, request.token_id) 1 }
              st1.add_token_to_owner request.sender request.token_id
            else st
          | none => st
        match recovery_action with
        | .UnlockToken =>
            let s1 := restore s
            (.ok (),
              { s1 with bridge_requests := insertM s1.bridge_requests request_id request })
        | .RefundGas =>
            (.ok (),
              { s with bridge_requests := insertM s.bridge_requests request_id request })
        | .RetryBridge =>
            let request' := { request with
              status := BridgeOperationStatus.Pending, signatures := [] }
            (.ok (),
              { s with bridge_requests := insertM s.bridge_requests request_id request' })
        | .CancelBridge =>
            let request' := { request with status := BridgeOperationStatus.Failed }
            let s1 := restore s
            (.ok (),
              { s1 with bridge_requests := insertM s1.bridge_requests request_id request' })

/-- Source: `PropertyToken::monitor_bridge_status`. -/
def PropertyToken.monitor_bridge_status (s : PropertyToken)
    (request_id : Nat) : Option BridgeMonitoringInfo :=
  (lookupM s.bridge_requests request_id).map (fun request =>
    { bridge_request_id := request.request_id
      token_id := request.token_id
      source_chain := request.source_chain
      destination_chain := request.destination_chain
      status := request.status
      created_at := request.created_at
      expires_at := request.expires_at
      signatures_collected := request.signatures.length % 256
      signatures_required := request.required_signatures
      error_message := none })

/-- Source: `PropertyToken::verify_bridge_transaction` (the `token_id` and
`source_chain` arguments are unused in the source). -/
def PropertyToken.verify_bridge_transaction (s : PropertyToken)
    (_token_id : TokenId) (transaction_hash : BridgeHash)
    (_source_chain : ChainId) : Bool :=
  (lookupM s.verified_bridge_hashes transaction_hash).getD false

/-- Source: `PropertyToken::get_bridge_history`. -/
def PropertyToken.get_bridge_history (s : PropertyToken)
    (account : AccountId) : List BridgeTransaction :=
  (lookupM s.bridge_transactions account).getD []

/-- Source: `PropertyToken::add_bridge_operator`. -/
def PropertyToken.add_bridge_operator (s : PropertyToken)
    (caller : AccountId) (operator : AccountId) :
    Except TokenError Unit × PropertyToken :=
  if caller ≠ s.admin then
    (.error .Unauthorized, s)
  else if operator ∈ s.bridge_operators then
    (.ok (), s)
  else
    (.ok (), { s with bridge_operators := s.bridge_operators ++ [operator] })

/-- Source: `PropertyToken::remove_bridge_operator`. -/
def PropertyToken.remove_bridge_operator (s : PropertyToken)
    (caller : AccountId) (operator : AccountId) :
    Except TokenError Unit × PropertyToken :=
  if caller ≠ s.admin then
    (.error .Unauthorized, s)
  else
    (.ok (), { s with bridge_operators := s.bridge_operators.filter (fun op => op ≠ operator) })

/-! ## Concrete scenario states

Small executions of the embedded contracts, used to witness and to refute
the claims.  `sampleMetadata` plays the role of the property metadata used
in the source's own unit tests. -/

/-- A sample property metadata record. -/
def sampleMetadata : PropertyMetadata :=
  { location := "L", size := 1, legal_description := "D", valuation := 1,
    documents_url := "U" }

/-- Bridge contract freshly constructed by account 1:
`new(supported_chains = [2], min = 1, max = 2, timeout = 100, gas = 500000)`. -/
def bridgeS0 : PropertyBridge := PropertyBridge.new 1 [2] 1 2 100 500000

/-- `bridgeS0` after the admin adds operator 2. -/
def bridgeS1 : PropertyBridge := (bridgeS0.add_bridge_operator 1 2).2

/-- `bridgeS1` after the admin adds operator 3 (operators 1, 2, 3). -/
def bridgeS2 : PropertyBridge := (bridgeS1.add_bridge_operator 1 3).2

/-- Account 5 creates a two-signature request for token 7 (request id 1). -/
def vetoS3 : PropertyBridge :=
  (bridgeS2.initiate_bridge_multisig 5 0 7 2 9 2 none sampleMetadata).2

/-- Operator 1 vetoes request 1 (`approve = false`): status `Failed`. -/
def vetoS4 : PropertyBridge := (vetoS3.sign_bridge_request 1 0 1 false).2

/-- The stored request of `vetoS4`: `Failed` with signatures `[1]`. -/
def vetoRequest : MultisigBridgeRequest :=
  { request_id := 1, token_id := 7, source_chain := 1, destination_chain := 2,
    sender := 5, recipient := 9, required_signatures := 2, signatures := [1],
    created_at := 0, expires_at := none, status := .Failed,
    metadata := sampleMetadata }

/-- Account 5 creates a one-signature request for token 7 (request id 1). -/
def quorumS3 : PropertyBridge :=
  (bridgeS2.initiate_bridge_multisig 5 0 7 2 9 1 none sampleMetadata).2

/-- Operator 1 approves request 1; the quorum of 1 is reached: `Locked`. -/
def quorumS4 : PropertyBridge := (quorumS3.sign_bridge_request 1 0 1 true).2

/-- Operator 1 executes request 1: `Completed`. -/
def quorumS5 : PropertyBridge := (quorumS4.execute_bridge 1 0 1).2

/-- The stored request of `quorumS5`: `Completed` with signatures `[1]`. -/
def quorumRequestC : MultisigBridgeRequest :=
  { request_id := 1, token_id := 7, source_chain := 1, destination_chain := 2,
    sender := 5, recipient := 9, required_signatures := 1, signatures := [1],
    created_at := 0, expires_at := none, status := .Completed,
    metadata := sampleMetadata }

/-- The stored request of `quorumS4`: `Locked` with signatures `[1]`. -/
def quorumRequestL : MultisigBridgeRequest :=
  { quorumRequestC with status := .Locked }

/-- Account 5 creates a one-signature request with a 1-block timeout. -/
def expS3 : PropertyBridge :=
  (bridgeS2.initiate_bridge_multisig 5 0 7 2 9 1 (some 1) sampleMetadata).2

/-- Property-token contract freshly constructed by account 1. -/
def ptS0 : PropertyToken := PropertyToken.new 1

/-- Account 5 registers a property: token 1 owned by 5. -/
def ptS1 : PropertyToken := (ptS0.register_property_with_token 5 0 sampleMetadata).2

/-- Admin 1 verifies compliance for token 1. -/
def ptS2 : PropertyToken := (ptS1.verify_compliance 1 0 1 true).2

/-- Owner 5 creates a two-signature bridge request for token 1 with a
1-block timeout (request id 1, expires at block 1). -/
def ptS3 : PropertyToken := (ptS2.initiate_bridge_multisig 5 0 1 2 9 2 (some 1)).2

/-- The stored request of `ptS3`: `Pending`, expires at block 1. -/
def ptRequest1 : MultisigBridgeRequest :=
  { request_id := 1, token_id := 1, source_chain := 1, destination_chain := 2,
    sender := 5, recipient := 9, required_signatures := 2, signatures := [],
    created_at := 0, expires_at := some 1, status := .Pending,
    metadata := sampleMetadata }

/-- `ptS2` after admin 1 adds bridge operator 2. -/
def ptB0 : PropertyToken := (ptS2.add_bridge_operator 1 2).2

/-- Owner 5 creates a two-signature request without timeout (request id 1). -/
def ptB1 : PropertyToken := (ptB0.initiate_bridge_multisig 5 0 1 2 9 2 none).2

/-- Operator 1 approves request 1 (1 of 2 signatures). -/
def ptB2 : PropertyToken := (ptB1.sign_bridge_request 1 0 1 true).2

/-- Operator 2 approves request 1; quorum reached, token locked, `Locked`. -/
def ptB3 : PropertyToken := (ptB2.sign_bridge_request 2 0 1 true).2

/-- The stored request of `ptB3`: `Locked` with signatures `[1, 2]`. -/
def ptRequestL : MultisigBridgeRequest :=
  { request_id := 1, token_id := 1, source_chain := 1, destination_chain := 2,
    sender := 5, recipient := 9, required_signatures := 2, signatures := [1, 2],
    created_at := 0, expires_at := none, status := .Locked,
    metadata := sampleMetadata }

/-- A property-token state whose verified-hash set already contains hash 42
(as left behind by an execute on a source chain), used to exercise
`receive_bridged_token`. -/
def recS : PropertyToken := { ptS0 with verified_bridge_hashes := [(42, true)] }

/-! ## Invariants and command machinery -/

/-- Per-store no-duplicate-signer invariant: every stored request's
signature list holds no account twice. -/
def sigsNodup (m : List (Nat × MultisigBridgeRequest)) : Prop :=
  ∀ p ∈ m, (p.2).signatures.Nodup

instance (m : List (Nat × MultisigBridgeRequest)) : Decidable (sigsNodup m) :=
  List.decidableBAll _ m

/-- One externally callable state-changing message of the property-token
contract, with its caller and environment. -/
inductive PTCommand
  | register (caller ts : Nat) (metadata : PropertyMetadata)
  | verifyCompliance (caller ts token_id : Nat) (status : Bool)
  | initiate (caller bn token_id dest recipient req_sigs : Nat) (timeout : Option Nat)
  | sign (caller bn request_id : Nat) (approve : Bool)
  | execute (caller ts request_id : Nat)
  | receive (caller ts source_chain original recipient : Nat)
      (metadata : PropertyMetadata) (hash : BridgeHash)
  | burn (caller token_id dest recipient : Nat)
  | recover (caller request_id : Nat) (action : RecoveryAction)
  | addOperator (caller operator : Nat)
  | removeOperator (caller operator : Nat)

/-- State reached by one property-token message (the result value is
discarded). -/
def PTCommand.apply (s : PropertyToken) : PTCommand → PropertyToken
  | .register caller ts md => (s.register_property_with_token caller ts md).2
  | .verifyCompliance caller ts token st => (s.verify_compliance caller ts token st).2
  | .initiate caller bn token dest recip req to_ =>
      (s.initiate_bridge_multisig caller bn token dest recip req to_).2
  | .sign caller bn id ap => (s.sign_bridge_request caller bn id ap).2
  | .execute caller ts id => (s.execute_bridge caller ts id).2
  | .receive caller ts src orig recip md h =>
      (s.receive_bridged_token caller ts src orig recip md h).2
  | .burn caller token dest recip => (s.burn_bridged_token caller token dest recip).2
  | .recover caller id act => (s.recover_failed_bridge caller id act).2
  | .addOperator caller op => (s.add_bridge_operator caller op).2
  | .removeOperator caller op => (s.remove_bridge_operator caller op).2

/-- The property-token state reached from a fresh contract deployed by
`deployer` after a sequence of messages. -/
def PropertyToken.run (deployer : AccountId) (cmds : List PTCommand) : PropertyToken :=
  cmds.foldl PTCommand.apply (PropertyToken.new deployer)

/-- One externally callable state-changing message of the standalone
bridge contract, with its caller and environment. -/
inductive BridgeCommand
  | initiate (caller bn token_id dest recipient req_sigs : Nat) (timeout : Option Nat)
      (metadata : PropertyMetadata)
  | sign (caller bn request_id : Nat) (approve : Bool)
  | execute (caller ts request_id : Nat)
  | recover (caller request_id : Nat) (action : RecoveryAction)
  | addOperator (caller operator : Nat)

/-- State reached by one bridge-contract message (the result value is
discarded). -/
def BridgeCommand.apply (s : PropertyBridge) : BridgeCommand → PropertyBridge
  | .initiate caller bn token dest recip req to_ md =>
      (s.initiate_bridge_multisig caller bn token dest recip req to_ md).2
  | .sign caller bn id ap => (s.sign_bridge_request caller bn id ap).2
  | .execute caller ts id => (s.execute_bridge caller ts id).2
  | .recover caller id act => (s.recover_failed_bridge caller id act).2
  | .addOperator caller op => (s.add_bridge_operator caller op).2

/-- The bridge-contract state reached from a fresh contract after a
sequence of messages. -/
def PropertyBridge.run (deployer : AccountId) (chains : List ChainId)
    (mn mx to_ gas : Nat) (cmds : List BridgeCommand) : PropertyBridge :=
  cmds.foldl BridgeCommand.apply (PropertyBridge.new deployer chains mn mx to_ gas)

/-- The stored request of `quorumS3`: `Pending` with no signatures. -/
def pendingRequest7 : MultisigBridgeRequest :=
  { request_id := 1, token_id := 7, source_chain := 1, destination_chain := 2,
    sender := 5, recipient := 9, required_signatures := 1, signatures := [],
    created_at := 0, expires_at := none, status := .Pending,
    metadata := sampleMetadata }

/-! ## Association-list lemmas -/

theorem lookupM_insertM_self {α β : Type} [DecidableEq α]
    (m : List (α × β)) (k : α) (v : β) :
    lookupM (insertM m k v) k = some v := by
  induction m with
  | nil => simp [insertM, lookupM]
  | cons p rest ih =>
    obtain ⟨a, b⟩ := p
    by_cases h : k = a
    · simp [insertM, lookupM, h]
    · simp [insertM, lookupM, h, ih]

theorem lookupM_insertM_ne {α β : Type} [DecidableEq α]
    (m : List (α × β)) (k k' : α) (v : β) (h : k' ≠ k) :
    lookupM (insertM m k v) k' = lookupM m k' := by
  induction m with
  | nil => simp [insertM, lookupM, h]
  | cons p rest ih =>
    obtain ⟨a, b⟩ := p
    by_cases hka : k = a
    · subst hka
      simp [insertM, lookupM, h]
    · by_cases hk'a : k' = a
      · simp [insertM, lookupM, hka, hk'a]
      · simp [insertM, lookupM, hka, hk'a, ih]

theorem mem_insertM {α β : Type} [DecidableEq α]
    {m : List (α × β)} {k : α} {v : β} {p : α × β}
    (h : p ∈ insertM m k v) : p = (k, v) ∨ p ∈ m := by
  induction m with
  | nil => simpa [insertM] using h
  | cons q rest ih =>
    obtain ⟨a, b⟩ := q
    by_cases hka : k = a
    · simp only [insertM, if_pos hka] at h
      rcases List.mem_cons.mp h with h1 | h1
      · exact Or.inl h1
      · exact Or.inr (List.mem_cons_of_mem _ h1)
    · simp only [insertM, if_neg hka] at h
      rcases List.mem_cons.mp h with h1 | h1
      · exact Or.inr (h1 ▸ List.mem_cons_self _ _)
      · rcases ih h1 with h2 | h2
        · exact Or.inl h2
        · exact Or.inr (List.mem_cons_of_mem _ h2)

theorem lookupM_mem {α β : Type} [DecidableEq α]
    {m : List (α × β)} {k : α} {v : β}
    (h : lookupM m k = some v) : (k, v) ∈ m := by
  induction m with
  | nil => simp [lookupM] at h
  | cons q rest ih =>
    obtain ⟨a, b⟩ := q
    by_cases hka : k = a
    · simp only [lookupM, if_pos hka] at h
      subst hka
      obtain rfl : b = v := by injection h
      exact List.mem_cons_self _ _
    · simp only [lookupM, if_neg hka] at h
      exact List.mem_cons_of_mem _ (ih h)

theorem nodup_append_singleton {l : List AccountId} {a : AccountId}
    (h : l.Nodup) (ha : a ∉ l) : (l ++ [a]).Nodup := by
  simp [List.nodup_append, h, ha]

/-! ## C1 -/

/-- **C1, counterexample.**  In the standalone bridge contract, request 1 of
`vetoS4` is `Failed` after operator 1's veto, yet a subsequent
`sign_bridge_request` by operator 2 is accepted: it returns `Ok`, appends
operator 2 to the signature list, and even drives the status to `Locked`. -/
theorem C1_counterexample :
    ((lookupM vetoS4.bridge_requests 1).map (fun r => r.status)
        = some BridgeOperationStatus.Failed) ∧
    (vetoS4.sign_bridge_request 2 0 1 true).1 = .ok () ∧
    ((lookupM (vetoS4.sign_bridge_request 2 0 1 true).2.bridge_requests 1).map
        (fun r => (r.status, r.signatures))
      = some (BridgeOperationStatus.Locked, [1, 2])) := by
  decide

/-- **C1 (amended).**  Once a request is `Failed` by a veto, a further
`sign_bridge_request` call is rejected only for an operator who has already
signed (`AlreadySigned`, state unchanged); a registered operator who has not
yet signed is accepted — the call returns `Ok` and appends that operator to
the signature list.  (Stated on the standalone bridge contract; the
property-token body has the identical already-signed / append structure.) -/
theorem C1_veto_sign (s : PropertyBridge) (caller block_number request_id : Nat)
    (approve : Bool) (r : MultisigBridgeRequest)
    (hop : caller ∈ s.bridge_operators)
    (hreq : lookupM s.bridge_requests request_id = some r)
    (_hfail : r.status = BridgeOperationStatus.Failed)
    (hexp : r.expired block_number = false) :
    (caller ∈ r.signatures →
      s.sign_bridge_request caller block_number request_id approve
        = (.error .AlreadySigned, s)) ∧
    (caller ∉ r.signatures →
      (s.sign_bridge_request caller block_number request_id approve).1 = .ok () ∧
      ((lookupM (s.sign_bridge_request caller block_number request_id approve).2.bridge_requests
          request_id).map (fun r' => r'.signatures))
        = some (r.signatures ++ [caller])) := by
  constructor
  · intro hmem
    unfold PropertyBridge.sign_bridge_request
    simp [hop, hreq, hexp, hmem]
  · intro hmem
    unfold PropertyBridge.sign_bridge_request
    simp [hop, hreq, hexp, hmem, lookupM_insertM_self]

/-- **C1, witness.**  Concrete instance of `C1_veto_sign` on `vetoS4`:
operator 2 has not signed the vetoed request, and its sign call is accepted
with signatures `[1] ++ [2]`. -/
theorem C1_witness :
    (2 : AccountId) ∉ vetoRequest.signatures ∧
    ((vetoS4.sign_bridge_request 2 0 1 true).1 = .ok () ∧
      ((lookupM (vetoS4.sign_bridge_request 2 0 1 true).2.bridge_requests 1).map
          (fun r' => r'.signatures))
        = some (vetoRequest.signatures ++ [2])) :=
  ⟨by decide,
    (C1_veto_sign vetoS4 2 0 1 true vetoRequest (by decide) (by decide)
      (by decide) (by decide)).2 (by decide)⟩

/-! ## C2 -/

/-- **C2, counterexample.**  In the standalone bridge contract, request 1 of
`quorumS5` is already `Completed`, yet a further `sign_bridge_request` by
operator 2 is not rejected with `InvalidRequest`: it returns `Ok` and moves
the status back to `Locked` — a second transition into `Locked` without any
`RetryBridge` recovery. -/
theorem C2_counterexample :
    ((lookupM quorumS5.bridge_requests 1).map (fun r => r.status)
        = some BridgeOperationStatus.Completed) ∧
    (quorumS5.sign_bridge_request 2 0 1 true).1 = .ok () ∧
    (quorumS5.sign_bridge_request 2 0 1 true).1
        ≠ .error BridgeError.InvalidRequest ∧
    ((lookupM (quorumS5.sign_bridge_request 2 0 1 true).2.bridge_requests 1).map
        (fun r => r.status) = some BridgeOperationStatus.Locked) := by
  decide

/-- **C2 (amended).**  `sign_bridge_request` never inspects the stored
status: a registered operator who has not yet signed an unexpired request is
accepted regardless of the request's status, and whenever the resulting
signer count meets `required_signatures` with `approve = true` the status is
set to `Locked` — so a request can enter `Locked` on more than one call,
including from `Completed`.  `InvalidRequest` is returned exactly for an
unknown request id.  (Stated on the standalone bridge contract.) -/
theorem C2_sign_status_blind :
    (∀ (s : PropertyBridge) (caller block_number request_id : Nat)
        (r : MultisigBridgeRequest),
      caller ∈ s.bridge_operators →
      lookupM s.bridge_requests request_id = some r →
      r.expired block_number = false →
      caller ∉ r.signatures →
      r.required_signatures ≤ r.signatures.length + 1 →
      (s.sign_bridge_request caller block_number request_id true).1 = .ok () ∧
      ((lookupM (s.sign_bridge_request caller block_number request_id true).2.bridge_requests
          request_id).map (fun r' => r'.status))
        = some BridgeOperationStatus.Locked) ∧
    (∀ (s : PropertyBridge) (caller block_number request_id : Nat) (approve : Bool),
      caller ∈ s.bridge_operators →
      lookupM s.bridge_requests request_id = none →
      s.sign_bridge_request caller block_number request_id approve
        = (.error .InvalidRequest, s)) := by
  constructor
  · intro s caller block_number request_id r hop hreq hexp hsig hq
    unfold PropertyBridge.sign_bridge_request
    simp [hop, hreq, hexp, hsig, hq, lookupM_insertM_self]
  · intro s caller block_number request_id approve hop hreq
    unfold PropertyBridge.sign_bridge_request
    simp [hop, hreq]

/-- **C2, witness.**  Concrete instance of `C2_sign_status_blind` on
`quorumS5`: the stored request is `Completed`, operator 2 has not signed it,
and the sign call returns `Ok`, re-entering `Locked`. -/
theorem C2_witness :
    quorumRequestC.status = BridgeOperationStatus.Completed ∧
    ((quorumS5.sign_bridge_request 2 0 1 true).1 = .ok () ∧
      ((lookupM (quorumS5.sign_bridge_request 2 0 1 true).2.bridge_requests 1).map
          (fun r' => r'.status)) = some BridgeOperationStatus.Locked) :=
  ⟨by decide,
    C2_sign_status_blind.1 quorumS5 2 0 1 quorumRequestC (by decide) (by decide)
      (by decide) (by decide) (by decide)⟩

/-! ## C3

The per-operation atomicity lemmas: each operation either leaves the state
exactly as it was, or returns `Ok` — except the two property-token paths
singled out below (the lazy-expiry persist in `sign_bridge_request` and the
early counter increment in `initiate_bridge_multisig`). -/

theorem initiate_error_unchanged_bridge (s : PropertyBridge)
    (caller bn token dest recip req : Nat) (to_ : Option Nat) (md : PropertyMetadata) :
    (s.initiate_bridge_multisig caller bn token dest recip req to_ md).2 = s ∨
    (∃ v, (s.initiate_bridge_multisig caller bn token dest recip req to_ md).1
      = Except.ok v) := by
  unfold PropertyBridge.initiate_bridge_multisig
  repeat' split
  all_goals simp

theorem sign_error_unchanged_bridge (s : PropertyBridge) (caller bn id : Nat) (ap : Bool) :
    (s.sign_bridge_request caller bn id ap).2 = s ∨
    (∃ v, (s.sign_bridge_request caller bn id ap).1 = Except.ok v) := by
  unfold PropertyBridge.sign_bridge_request
  repeat' split
  all_goals simp

theorem execute_error_unchanged_bridge (s : PropertyBridge) (caller ts id : Nat) :
    (s.execute_bridge caller ts id).2 = s ∨
    (∃ v, (s.execute_bridge caller ts id).1 = Except.ok v) := by
  unfold PropertyBridge.execute_bridge
  repeat' split
  all_goals simp

theorem recover_error_unchanged_bridge (s : PropertyBridge) (caller id : Nat)
    (act : RecoveryAction) :
    (s.recover_failed_bridge caller id act).2 = s ∨
    (∃ v, (s.recover_failed_bridge caller id act).1 = Except.ok v) := by
  unfold PropertyBridge.recover_failed_bridge
  repeat' split
  all_goals simp

theorem initiate_error_counter_prop (s : PropertyToken)
    (caller bn token dest recip req : Nat) (to_ : Option Nat) :
    (s.initiate_bridge_multisig caller bn token dest recip req to_).2 = s ∨
    (∃ v, (s.initiate_bridge_multisig caller bn token dest recip req to_).1
      = Except.ok v) ∨
    ((s.initiate_bridge_multisig caller bn token dest recip req to_).1
        = .error .PropertyNotFound ∧
      (s.initiate_bridge_multisig caller bn token dest recip req to_).2
        = { s with bridge_request_counter := s.bridge_request_counter + 1 }) := by
  unfold PropertyToken.initiate_bridge_multisig
  repeat' split
  all_goals simp
  rcases hprop : lookupM s.token_properties token with _ | pinfo <;> simp [hprop]

theorem sign_error_expiry_prop (s : PropertyToken) (caller bn id : Nat) (ap : Bool) :
    (s.sign_bridge_request caller bn id ap).2 = s ∨
    (∃ v, (s.sign_bridge_request caller bn id ap).1 = Except.ok v) ∨
    ((s.sign_bridge_request caller bn id ap).1 = .error .RequestExpired ∧
      ∃ r, lookupM s.bridge_requests id = some r ∧
        (s.sign_bridge_request caller bn id ap).2
          = { s with bridge_requests := (insertM s.bridge_requests id
                  { r with status := BridgeOperationStatus.Expired }) }) := by
  by_cases hop : caller ∈ s.bridge_operators
  · rcases hreq : lookupM s.bridge_requests id with _ | r
    · unfold PropertyToken.sign_bridge_request
      simp [hop, hreq]
    · by_cases hexp : r.expired bn = true
      · refine Or.inr (Or.inr ⟨?_, r, rfl, ?_⟩) <;>
          (unfold PropertyToken.sign_bridge_request; simp [hop, hreq, hexp])
      · by_cases hsig : caller ∈ r.signatures
        · unfold PropertyToken.sign_bridge_request
          simp [hop, hreq, hexp, hsig]
        · cases ap
          · unfold PropertyToken.sign_bridge_request
            simp [hop, hreq, hexp, hsig]
          · by_cases hq : r.required_signatures ≤ r.signatures.length + 1
            · rcases hown : lookupM s.token_owner r.token_id with _ | o
              · unfold PropertyToken.sign_bridge_request
                simp [hop, hreq, hexp, hsig, hq, hown]
              · unfold PropertyToken.sign_bridge_request
                simp [hop, hreq, hexp, hsig, hq, hown]
            · unfold PropertyToken.sign_bridge_request
              simp [hop, hreq, hexp, hsig, hq]
  · unfold PropertyToken.sign_bridge_request
    simp [hop]

theorem execute_error_unchanged_prop (s : PropertyToken) (caller ts id : Nat) :
    (s.execute_bridge caller ts id).2 = s ∨
    (∃ v, (s.execute_bridge caller ts id).1 = Except.ok v) := by
  unfold PropertyToken.execute_bridge
  repeat' split
  all_goals simp

theorem receive_error_unchanged_prop (s : PropertyToken) (caller ts src orig recip : Nat)
    (md : PropertyMetadata) (h : BridgeHash) :
    (s.receive_bridged_token caller ts src orig recip md h).2 = s ∨
    (∃ v, (s.receive_bridged_token caller ts src orig recip md h).1 = Except.ok v) := by
  unfold PropertyToken.receive_bridged_token
  repeat' split
  all_goals simp

theorem burn_error_unchanged_prop (s : PropertyToken) (caller token dest recip : Nat) :
    (s.burn_bridged_token caller token dest recip).2 = s ∨
    (∃ v, (s.burn_bridged_token caller token dest recip).1 = Except.ok v) := by
  unfold PropertyToken.burn_bridged_token
  repeat' split
  all_goals simp

theorem recover_error_unchanged_prop (s : PropertyToken) (caller id : Nat)
    (act : RecoveryAction) :
    (s.recover_failed_bridge caller id act).2 = s ∨
    (∃ v, (s.recover_failed_bridge caller id act).1 = Except.ok v) := by
  unfold PropertyToken.recover_failed_bridge
  repeat' split
  all_goals simp

/-- **C3, counterexample.**  A failing call that does change state: on
`ptS3` (request 1 expires at block 1) a sign call at block 5 returns
`RequestExpired` yet leaves the contract in a different state (the stored
status is now `Expired`). -/
theorem C3_counterexample :
    (ptS3.sign_bridge_request 1 5 1 true).1 = .error TokenError.RequestExpired ∧
    (ptS3.sign_bridge_request 1 5 1 true).2 ≠ ptS3 := by
  decide

/-- **C3 (amended).**  Every bridge-lifecycle operation of both contracts
that returns an error leaves the contract state exactly unchanged, with two
property-token exceptions: `sign_bridge_request` on an expired request
persists that request's status as `Expired` while returning
`RequestExpired`, and `initiate_bridge_multisig` failing with
`PropertyNotFound` leaves `bridge_request_counter` incremented.  Each
conjunct says: the state is unchanged, or the call returned `Ok`, or the
call is one of the two exceptional paths with exactly the stated state
change. -/
theorem C3_atomic_on_failure :
    (∀ (s : PropertyBridge) (caller bn token dest recip req : Nat)
        (to_ : Option Nat) (md : PropertyMetadata),
      (s.initiate_bridge_multisig caller bn token dest recip req to_ md).2 = s ∨
      (∃ v, (s.initiate_bridge_multisig caller bn token dest recip req to_ md).1
        = Except.ok v)) ∧
    (∀ (s : PropertyBridge) (caller bn id : Nat) (ap : Bool),
      (s.sign_bridge_request caller bn id ap).2 = s ∨
      (∃ v, (s.sign_bridge_request caller bn id ap).1 = Except.ok v)) ∧
    (∀ (s : PropertyBridge) (caller ts id : Nat),
      (s.execute_bridge caller ts id).2 = s ∨
      (∃ v, (s.execute_bridge caller ts id).1 = Except.ok v)) ∧
    (∀ (s : PropertyBridge) (caller id : Nat) (act : RecoveryAction),
      (s.recover_failed_bridge caller id act).2 = s ∨
      (∃ v, (s.recover_failed_bridge caller id act).1 = Except.ok v)) ∧
    (∀ (s : PropertyToken) (caller bn token dest recip req : Nat) (to_ : Option Nat),
      (s.initiate_bridge_multisig caller bn token dest recip req to_).2 = s ∨
      (∃ v, (s.initiate_bridge_multisig caller bn token dest recip req to_).1
        = Except.ok v) ∨
      ((s.initiate_bridge_multisig caller bn token dest recip req to_).1
          = .error .PropertyNotFound ∧
        (s.initiate_bridge_multisig caller bn token dest recip req to_).2
          = { s with bridge_request_counter := s.bridge_request_counter + 1 })) ∧
    (∀ (s : PropertyToken) (caller bn id : Nat) (ap : Bool),
      (s.sign_bridge_request caller bn id ap).2 = s ∨
      (∃ v, (s.sign_bridge_request caller bn id ap).1 = Except.ok v) ∨
      ((s.sign_bridge_request caller bn id ap).1 = .error .RequestExpired ∧
        ∃ r, lookupM s.bridge_requests id = some r ∧
          (s.sign_bridge_request caller bn id ap).2
            = { s with bridge_requests := (insertM s.bridge_requests id
                    { r with status := BridgeOperationStatus.Expired }) })) ∧
    (∀ (s : PropertyToken) (caller ts id : Nat),
      (s.execute_bridge caller ts id).2 = s ∨
      (∃ v, (s.execute_bridge caller ts id).1 = Except.ok v)) ∧
    (∀ (s : PropertyToken) (caller ts src orig recip : Nat)
        (md : PropertyMetadata) (h : BridgeHash),
      (s.receive_bridged_token caller ts src orig recip md h).2 = s ∨
      (∃ v, (s.receive_bridged_token caller ts src orig recip md h).1 = Except.ok v)) ∧
    (∀ (s : PropertyToken) (caller token dest recip : Nat),
      (s.burn_bridged_token caller token dest recip).2 = s ∨
      (∃ v, (s.burn_bridged_token caller token dest recip).1 = Except.ok v)) ∧
    (∀ (s : PropertyToken) (caller id : Nat) (act : RecoveryAction),
      (s.recover_failed_bridge caller id act).2 = s ∨
      (∃ v, (s.recover_failed_bridge caller id act).1 = Except.ok v)) :=
  ⟨initiate_error_unchanged_bridge, sign_error_unchanged_bridge,
    execute_error_unchanged_bridge, recover_error_unchanged_bridge,
    initiate_error_counter_prop, sign_error_expiry_prop,
    execute_error_unchanged_prop, receive_error_unchanged_prop,
    burn_error_unchanged_prop, recover_error_unchanged_prop⟩

/-! ## C4 -/

/-- **C4, counterexample.**  The standalone bridge contract never checks for
an existing active request: with request 1 for token 7 still `Pending` in
`dupS3 := quorumS3`, a second create for the same token succeeds (id 2,
no `DuplicateRequest` error), leaving two simultaneously `Pending` requests
for the one asset in a reachable state. -/
theorem C4_counterexample :
    ((lookupM quorumS3.bridge_requests 1).map (fun r => (r.token_id, r.status))
        = some (7, BridgeOperationStatus.Pending)) ∧
    (quorumS3.initiate_bridge_multisig 5 0 7 2 9 1 none sampleMetadata).1 = .ok 2 ∧
    ((lookupM (quorumS3.initiate_bridge_multisig 5 0 7 2 9 1 none sampleMetadata).2.bridge_requests 1).map
        (fun r => (r.token_id, r.status)) = some (7, BridgeOperationStatus.Pending)) ∧
    ((lookupM (quorumS3.initiate_bridge_multisig 5 0 7 2 9 1 none sampleMetadata).2.bridge_requests 2).map
        (fun r => (r.token_id, r.status)) = some (7, BridgeOperationStatus.Pending)) := by
  decide

/-- **C4 (amended).**  Only the property-token contract enforces the
single-active-request invariant at creation: when an active (`Pending` or
`Locked`) request exists for the token, `initiate_bridge_multisig` by the
owner fails with `DuplicateBridgeRequest` and stores nothing.  The
standalone bridge contract performs no duplicate check, so two active
requests for one asset are reachable there. -/
theorem C4_duplicate_create_rejected (s : PropertyToken)
    (caller block_number token_id destination_chain recipient required_signatures : Nat)
    (timeout_blocks : Option Nat) (ci : ComplianceInfo)
    (hown : lookupM s.token_owner token_id = some caller)
    (hpause : s.bridge_config.emergency_pause = false)
    (hchain : destination_chain ∈ s.bridge_config.supported_chains)
    (hcomp : lookupM s.compliance_flags token_id = some ci)
    (hver : ci.verified = true)
    (hsig : ¬ (required_signatures < s.bridge_config.min_signatures_required
        ∨ required_signatures > s.bridge_config.max_signatures_required))
    (hdup : s.has_pending_bridge_request token_id = true) :
    s.initiate_bridge_multisig caller block_number token_id destination_chain
        recipient required_signatures timeout_blocks
      = (.error .DuplicateBridgeRequest, s) := by
  unfold PropertyToken.initiate_bridge_multisig
  simp [hown, hpause, hchain, hcomp, hver, hsig, hdup]

/-- **C4, witness.**  Concrete instance of `C4_duplicate_create_rejected` on
`ptS3`, whose request 1 for token 1 is `Pending`: a second create by the
owner is rejected with `DuplicateBridgeRequest` and the state is unchanged. -/
theorem C4_witness :
    ptS3.has_pending_bridge_request 1 = true ∧
    ptS3.initiate_bridge_multisig 5 0 1 2 9 2 none
      = (.error .DuplicateBridgeRequest, ptS3) :=
  ⟨by decide,
    C4_duplicate_create_rejected ptS3 5 0 1 2 9 2 none
      { verified := true, verification_date := 0, verifier := 1, compliance_type := "KYC" }
      (by decide) (by decide) (by decide) (by decide) (by decide) (by decide) (by decide)⟩

/-! ## C5 -/

/-- **C5, counterexample.**  In the standalone bridge contract, a sign call
on the expired request 1 of `expS3` (expires at block 1, current block 5)
returns `RequestExpired`, but the stored status is *not* updated: monitoring
still reports `Pending`, not `Expired`. -/
theorem C5_counterexample :
    (expS3.sign_bridge_request 1 5 1 true).1 = .error BridgeError.RequestExpired ∧
    (((expS3.sign_bridge_request 1 5 1 true).2.monitor_bridge_status 1).map
        (fun i => i.status) = some BridgeOperationStatus.Pending) ∧
    (expS3.sign_bridge_request 1 5 1 true).2 = expS3 := by
  decide

/-- **C5 (amended).**  Only in the property-token contract does a sign call
past the deadline both return `RequestExpired` and persist the status
`Expired` (observable through `monitor_bridge_status`); the standalone
bridge contract returns the same error but leaves the stored status
untouched. -/
theorem C5_expiry_persisted (s : PropertyToken) (caller block_number request_id : Nat)
    (approve : Bool) (r : MultisigBridgeRequest) (deadline : Nat)
    (hop : caller ∈ s.bridge_operators)
    (hreq : lookupM s.bridge_requests request_id = some r)
    (hexp : r.expires_at = some deadline)
    (hbn : block_number > deadline) :
    (s.sign_bridge_request caller block_number request_id approve).1
        = .error TokenError.RequestExpired ∧
    (((s.sign_bridge_request caller block_number request_id approve).2.monitor_bridge_status
        request_id).map (fun i => i.status)) = some BridgeOperationStatus.Expired := by
  have hx : r.expired block_number = true := by
    unfold MultisigBridgeRequest.expired
    rw [hexp]
    simpa using hbn
  unfold PropertyToken.sign_bridge_request PropertyToken.monitor_bridge_status
  simp [hop, hreq, hx, lookupM_insertM_self]

/-- **C5, witness.**  Concrete instance of `C5_expiry_persisted` on `ptS3`
(request 1 expires at block 1): operator 1's sign at block 5 returns
`RequestExpired` and monitoring then reports status `Expired`. -/
theorem C5_witness :
    ptRequest1.expires_at = some 1 ∧ (5 : Nat) > 1 ∧
    ((ptS3.sign_bridge_request 1 5 1 true).1 = .error TokenError.RequestExpired ∧
      (((ptS3.sign_bridge_request 1 5 1 true).2.monitor_bridge_status 1).map
          (fun i => i.status)) = some BridgeOperationStatus.Expired) :=
  ⟨by decide, by decide,
    C5_expiry_persisted ptS3 1 5 1 true ptRequest1 1 (by decide) (by decide)
      (by decide) (by decide)⟩

/-! ## C6 -/

/-- **C6, counterexample.**  The standalone bridge contract's authorization
helper is a stub that accepts every account, so a caller who is not the
owner of the token can create a request there: in the asset ledger state
`ptS1` token 1 is owned by account 5, yet account 9's create call on the
bridge contract for token 1 succeeds instead of failing `Unauthorized`. -/
theorem C6_counterexample :
    lookupM ptS1.token_owner 1 = some 5 ∧
    bridgeS2.is_authorized_for_token 9 1 = true ∧
    (bridgeS2.initiate_bridge_multisig 9 0 1 2 9 1 none sampleMetadata).1 = .ok 1 ∧
    ((lookupM (bridgeS2.initiate_bridge_multisig 9 0 1 2 9 1 none sampleMetadata).2.bridge_requests 1).map
        (fun r => r.sender) = some 9) := by
  decide

/-- **C6 (amended).**  Only the property-token contract enforces ownership
at creation: a caller who is not the stored owner of an existing token gets
`Unauthorized` and no request is created.  The standalone bridge contract's
`is_authorized_for_token` stub accepts every caller. -/
theorem C6_nonowner_create_rejected (s : PropertyToken)
    (caller block_number token_id destination_chain recipient required_signatures : Nat)
    (timeout_blocks : Option Nat) (owner : AccountId)
    (hown : lookupM s.token_owner token_id = some owner)
    (hne : owner ≠ caller) :
    s.initiate_bridge_multisig caller block_number token_id destination_chain
        recipient required_signatures timeout_blocks
      = (.error .Unauthorized, s) := by
  unfold PropertyToken.initiate_bridge_multisig
  simp [hown, hne]

/-- **C6, witness.**  Concrete instance of `C6_nonowner_create_rejected` on
`ptS1`: token 1 is owned by account 5, so account 9's create is rejected
with `Unauthorized` and the state is unchanged. -/
theorem C6_witness :
    (5 : AccountId) ≠ 9 ∧
    ptS1.initiate_bridge_multisig 9 0 1 2 9 2 none = (.error .Unauthorized, ptS1) :=
  ⟨by decide, C6_nonowner_create_rejected ptS1 9 0 1 2 9 2 none 5 (by decide) (by decide)⟩

/-! ## C7 -/

/-- **C7.**  Execute round-trip, in both contracts: on a `Locked` request
with at least `required_signatures` collected, `execute_bridge` called by a
registered operator returns `Ok`; afterwards the stored status is
`Completed`, the sender's bridge history is exactly one entry longer, and
the generated transaction hash verifies via `verify_bridge_transaction`. -/
theorem C7_execute_roundtrip :
    (∀ (s : PropertyBridge) (caller block_timestamp request_id : Nat)
        (r : MultisigBridgeRequest),
      caller ∈ s.bridge_operators →
      lookupM s.bridge_requests request_id = some r →
      r.status = BridgeOperationStatus.Locked →
      r.required_signatures ≤ r.signatures.length →
      (s.execute_bridge caller block_timestamp request_id).1 = .ok () ∧
      ((lookupM (s.execute_bridge caller block_timestamp request_id).2.bridge_requests
          request_id).map (fun x => x.status)) = some BridgeOperationStatus.Completed ∧
      ((s.execute_bridge caller block_timestamp request_id).2.get_bridge_history
          r.sender).length = (s.get_bridge_history r.sender).length + 1 ∧
      (s.execute_bridge caller block_timestamp request_id).2.verify_bridge_transaction
        (generate_transaction_hash r block_timestamp) r.source_chain = true) ∧
    (∀ (s : PropertyToken) (caller block_timestamp request_id : Nat)
        (r : MultisigBridgeRequest),
      caller ∈ s.bridge_operators →
      lookupM s.bridge_requests request_id = some r →
      r.status = BridgeOperationStatus.Locked →
      r.required_signatures ≤ r.signatures.length →
      (s.execute_bridge caller block_timestamp request_id).1 = .ok () ∧
      ((lookupM (s.execute_bridge caller block_timestamp request_id).2.bridge_requests
          request_id).map (fun x => x.status)) = some BridgeOperationStatus.Completed ∧
      ((s.execute_bridge caller block_timestamp request_id).2.get_bridge_history
          r.sender).length = (s.get_bridge_history r.sender).length + 1 ∧
      (s.execute_bridge caller block_timestamp request_id).2.verify_bridge_transaction
        r.token_id (generate_transaction_hash r block_timestamp) r.source_chain = true) := by
  constructor
  · intro s caller block_timestamp request_id r hop hreq hst hsig
    have hnl : ¬ (r.signatures.length < r.required_signatures) := Nat.not_lt.mpr hsig
    unfold PropertyBridge.execute_bridge PropertyBridge.get_bridge_history
      PropertyBridge.verify_bridge_transaction
    simp [hop, hreq, hst, hnl, lookupM_insertM_self]
  · intro s caller block_timestamp request_id r hop hreq hst hsig
    have hnl : ¬ (r.signatures.length < r.required_signatures) := Nat.not_lt.mpr hsig
    unfold PropertyToken.execute_bridge PropertyToken.get_bridge_history
      PropertyToken.verify_bridge_transaction
    simp [hop, hreq, hst, hnl, lookupM_insertM_self]

/-- **C7, witness.**  Concrete instances of both halves of
`C7_execute_roundtrip`: executing the `Locked` request of `quorumS4`
(bridge contract) and of `ptB3` (property-token contract). -/
theorem C7_witness :
    (quorumRequestL.status = BridgeOperationStatus.Locked ∧
      ((quorumS4.execute_bridge 1 0 1).1 = .ok () ∧
        ((lookupM (quorumS4.execute_bridge 1 0 1).2.bridge_requests 1).map
            (fun x => x.status)) = some BridgeOperationStatus.Completed ∧
        ((quorumS4.execute_bridge 1 0 1).2.get_bridge_history
            quorumRequestL.sender).length
          = (quorumS4.get_bridge_history quorumRequestL.sender).length + 1 ∧
        (quorumS4.execute_bridge 1 0 1).2.verify_bridge_transaction
          (generate_transaction_hash quorumRequestL 0) quorumRequestL.source_chain
          = true)) ∧
    (ptRequestL.status = BridgeOperationStatus.Locked ∧
      ((ptB3.execute_bridge 1 0 1).1 = .ok () ∧
        ((lookupM (ptB3.execute_bridge 1 0 1).2.bridge_requests 1).map
            (fun x => x.status)) = some BridgeOperationStatus.Completed ∧
        ((ptB3.execute_bridge 1 0 1).2.get_bridge_history ptRequestL.sender).length
          = (ptB3.get_bridge_history ptRequestL.sender).length + 1 ∧
        (ptB3.execute_bridge 1 0 1).2.verify_bridge_transaction
          ptRequestL.token_id (generate_transaction_hash ptRequestL 0)
          ptRequestL.source_chain = true)) :=
  ⟨⟨by decide,
      C7_execute_roundtrip.1 quorumS4 1 0 1 quorumRequestL (by decide) (by decide)
        (by decide) (by decide)⟩,
    ⟨by decide,
      C7_execute_roundtrip.2 ptB3 1 0 1 ptRequestL (by decide) (by decide)
        (by decide) (by decide)⟩⟩

/-! ## C8 -/

/-- **C8.**  Recovery closure, in both contracts: for an existing request
and an admin caller, `recover_failed_bridge` returns `Ok` when the status is
`Failed` or `Expired`, and for any other status it returns `InvalidRequest`
with the whole state unchanged. -/
theorem C8_recover_closure :
    (∀ (s : PropertyBridge) (caller request_id : Nat) (act : RecoveryAction)
        (r : MultisigBridgeRequest),
      caller = s.admin →
      lookupM s.bridge_requests request_id = some r →
      ((r.status = BridgeOperationStatus.Failed
          ∨ r.status = BridgeOperationStatus.Expired) →
        (s.recover_failed_bridge caller request_id act).1 = .ok ()) ∧
      (r.status ≠ BridgeOperationStatus.Failed →
        r.status ≠ BridgeOperationStatus.Expired →
        s.recover_failed_bridge caller request_id act = (.error .InvalidRequest, s))) ∧
    (∀ (s : PropertyToken) (caller request_id : Nat) (act : RecoveryAction)
        (r : MultisigBridgeRequest),
      caller = s.admin →
      lookupM s.bridge_requests request_id = some r →
      ((r.status = BridgeOperationStatus.Failed
          ∨ r.status = BridgeOperationStatus.Expired) →
        (s.recover_failed_bridge caller request_id act).1 = .ok ()) ∧
      (r.status ≠ BridgeOperationStatus.Failed →
        r.status ≠ BridgeOperationStatus.Expired →
        s.recover_failed_bridge caller request_id act = (.error .InvalidRequest, s))) := by
  constructor
  · intro s caller request_id act r hadm hreq
    constructor
    · intro hfe
      have hc : ¬ (r.status ≠ BridgeOperationStatus.Failed
          ∧ r.status ≠ BridgeOperationStatus.Expired) := by
        rcases hfe with h | h <;> simp [h]
      unfold PropertyBridge.recover_failed_bridge
      cases act <;> simp [hadm, hreq, hc]
    · intro h1 h2
      unfold PropertyBridge.recover_failed_bridge
      simp [hadm, hreq, h1, h2]
  · intro s caller request_id act r hadm hreq
    constructor
    · intro hfe
      have hc : ¬ (r.status ≠ BridgeOperationStatus.Failed
          ∧ r.status ≠ BridgeOperationStatus.Expired) := by
        rcases hfe with h | h <;> simp [h]
      unfold PropertyToken.recover_failed_bridge
      cases act <;> simp [hadm, hreq, hc]
    · intro h1 h2
      unfold PropertyToken.recover_failed_bridge
      simp [hadm, hreq, h1, h2]

/-- **C8, witness.**  Concrete instances of `C8_recover_closure` on the
bridge contract: recovery of the `Failed` request of `vetoS4` succeeds,
while recovery of the `Pending` request of `quorumS3` fails with
`InvalidRequest` and changes nothing. -/
theorem C8_witness :
    (vetoRequest.status = BridgeOperationStatus.Failed ∧
      (vetoS4.recover_failed_bridge 1 1 RecoveryAction.RetryBridge).1 = .ok ()) ∧
    (pendingRequest7.status = BridgeOperationStatus.Pending ∧
      quorumS3.recover_failed_bridge 1 1 RecoveryAction.RetryBridge
        = (.error .InvalidRequest, quorumS3)) :=
  ⟨⟨by decide,
      (C8_recover_closure.1 vetoS4 1 1 RecoveryAction.RetryBridge vetoRequest
        (by decide) (by decide)).1 (by decide)⟩,
    ⟨by decide,
      (C8_recover_closure.1 quorumS3 1 1 RecoveryAction.RetryBridge pendingRequest7
        (by decide) (by decide)).2 (by decide) (by decide)⟩⟩

/-! ## C10 -/

/-- Effects of one successful `receive_bridged_token` call: the new token id
is `token_counter + 1`, the supply grows by one, and neither the verified
hash set nor the operator list changes. -/
theorem receive_bridged_token_effects (s : PropertyToken)
    (caller ts src orig recip : Nat) (md : PropertyMetadata) (h : BridgeHash)
    (hop : caller ∈ s.bridge_operators)
    (hver : (lookupM s.verified_bridge_hashes h).getD false = true) :
    (s.receive_bridged_token caller ts src orig recip md h).1
        = .ok (s.token_counter + 1) ∧
    (s.receive_bridged_token caller ts src orig recip md h).2.token_counter
        = s.token_counter + 1 ∧
    (s.receive_bridged_token caller ts src orig recip md h).2.total_supply
        = s.total_supply + 1 ∧
    (s.receive_bridged_token caller ts src orig recip md h).2.verified_bridge_hashes
        = s.verified_bridge_hashes ∧
    (s.receive_bridged_token caller ts src orig recip md h).2.bridge_operators
        = s.bridge_operators := by
  unfold PropertyToken.receive_bridged_token PropertyToken.add_token_to_owner
  rcases hbt : lookupM s.bridged_tokens (src, orig) with _ | bi <;>
    simp [hop, hver, hbt]

/-- **C10.**  `receive_bridged_token` never consumes a verified hash: with
the hash still verified after the first call, a second identical call by the
same operator also succeeds; the two calls mint the distinct token ids
`token_counter + 1` and `token_counter + 2` and raise `total_supply` by one
each — the verified hash is replayable. -/
theorem C10_receive_replayable (s : PropertyToken)
    (caller ts src orig recip : Nat) (md : PropertyMetadata) (h : BridgeHash)
    (hop : caller ∈ s.bridge_operators)
    (hver : (lookupM s.verified_bridge_hashes h).getD false = true) :
    (s.receive_bridged_token caller ts src orig recip md h).1
        = .ok (s.token_counter + 1) ∧
    (lookupM (s.receive_bridged_token caller ts src orig recip md h).2.verified_bridge_hashes
        h).getD false = true ∧
    ((s.receive_bridged_token caller ts src orig recip md h).2.receive_bridged_token
        caller ts src orig recip md h).1 = .ok (s.token_counter + 2) ∧
    s.token_counter + 1 ≠ s.token_counter + 2 ∧
    (s.receive_bridged_token caller ts src orig recip md h).2.total_supply
        = s.total_supply + 1 ∧
    ((s.receive_bridged_token caller ts src orig recip md h).2.receive_bridged_token
        caller ts src orig recip md h).2.total_supply = s.total_supply + 2 := by
  obtain ⟨e1, e2, e3, e4, e5⟩ :=
    receive_bridged_token_effects s caller ts src orig recip md h hop hver
  have hop1 : caller ∈ (s.receive_bridged_token caller ts src orig recip md h).2.bridge_operators := by
    rw [e5]; exact hop
  have hver1 : (lookupM (s.receive_bridged_token caller ts src orig recip md h).2.verified_bridge_hashes h).getD false = true := by
    rw [e4]; exact hver
  obtain ⟨f1, f2, f3, f4, f5⟩ :=
    receive_bridged_token_effects (s.receive_bridged_token caller ts src orig recip md h).2
      caller ts src orig recip md h hop1 hver1
  refine ⟨e1, hver1, ?_, by omega, e3, ?_⟩
  · rw [f1, e2]
  · rw [f3, e3]

/-- **C10, witness.**  Concrete instance of `C10_receive_replayable` on
`recS` (hash 42 verified): operator 1 mints token 1 and then token 2 from
the same hash, and the supply rises to 2. -/
theorem C10_witness :
    (1 : AccountId) ∈ recS.bridge_operators ∧
    ((recS.receive_bridged_token 1 0 2 7 9 sampleMetadata 42).1 = .ok 1 ∧
      (lookupM (recS.receive_bridged_token 1 0 2 7 9 sampleMetadata 42).2.verified_bridge_hashes
          42).getD false = true ∧
      ((recS.receive_bridged_token 1 0 2 7 9 sampleMetadata 42).2.receive_bridged_token
          1 0 2 7 9 sampleMetadata 42).1 = .ok 2 ∧
      (1 : Nat) ≠ 2 ∧
      (recS.receive_bridged_token 1 0 2 7 9 sampleMetadata 42).2.total_supply = 1 ∧
      ((recS.receive_bridged_token 1 0 2 7 9 sampleMetadata 42).2.receive_bridged_token
          1 0 2 7 9 sampleMetadata 42).2.total_supply = 2) :=
  ⟨by decide,
    C10_receive_replayable recS 1 0 2 7 9 sampleMetadata 42 (by decide) (by decide)⟩

/-! ## C9 -/

theorem sigsNodup_insertM {m : List (Nat × MultisigBridgeRequest)} {k : Nat}
    {r : MultisigBridgeRequest} (hm : sigsNodup m) (hr : r.signatures.Nodup) :
    sigsNodup (insertM m k r) := by
  intro p hp
  rcases mem_insertM hp with h | h
  · rw [h]
    exact hr
  · exact hm p h

theorem sigsNodup_lookup {m : List (Nat × MultisigBridgeRequest)} {k : Nat}
    {r : MultisigBridgeRequest} (hm : sigsNodup m) (h : lookupM m k = some r) :
    r.signatures.Nodup :=
  hm _ (lookupM_mem h)

theorem sign_preserves_nodup_bridge (s : PropertyBridge) (caller bn id : Nat)
    (ap : Bool) (hm : sigsNodup s.bridge_requests) :
    sigsNodup (s.sign_bridge_request caller bn id ap).2.bridge_requests := by
  by_cases hop : caller ∈ s.bridge_operators
  · rcases hreq : lookupM s.bridge_requests id with _ | r
    · unfold PropertyBridge.sign_bridge_request
      simpa [hop, hreq] using hm
    · by_cases hexp : r.expired bn = true
      · unfold PropertyBridge.sign_bridge_request
        simpa [hop, hreq, hexp] using hm
      · by_cases hsig : caller ∈ r.signatures
        · unfold PropertyBridge.sign_bridge_request
          simpa [hop, hreq, hexp, hsig] using hm
        · unfold PropertyBridge.sign_bridge_request
          simp [hop, hreq, hexp, hsig]
          exact sigsNodup_insertM hm
            (nodup_append_singleton (sigsNodup_lookup hm hreq) hsig)
  · unfold PropertyBridge.sign_bridge_request
    simpa [hop] using hm

theorem sign_preserves_nodup_prop (s : PropertyToken) (caller bn id : Nat)
    (ap : Bool) (hm : sigsNodup s.bridge_requests) :
    sigsNodup (s.sign_bridge_request caller bn id ap).2.bridge_requests := by
  by_cases hop : caller ∈ s.bridge_operators
  · rcases hreq : lookupM s.bridge_requests id with _ | r
    · unfold PropertyToken.sign_bridge_request
      simpa [hop, hreq] using hm
    · by_cases hexp : r.expired bn = true
      · unfold PropertyToken.sign_bridge_request
        simp [hop, hreq, hexp]
        exact sigsNodup_insertM hm (by simpa using sigsNodup_lookup hm hreq)
      · by_cases hsig : caller ∈ r.signatures
        · unfold PropertyToken.sign_bridge_request
          simpa [hop, hreq, hexp, hsig] using hm
        · cases ap
          · unfold PropertyToken.sign_bridge_request
            simp [hop, hreq, hexp, hsig]
            exact sigsNodup_insertM hm
              (nodup_append_singleton (sigsNodup_lookup hm hreq) hsig)
          · by_cases hq : r.required_signatures ≤ r.signatures.length + 1
            · rcases hown : lookupM s.token_owner r.token_id with _ | o
              · unfold PropertyToken.sign_bridge_request
                simpa [hop, hreq, hexp, hsig, hq, hown] using hm
              · unfold PropertyToken.sign_bridge_request
                simp [hop, hreq, hexp, hsig, hq, hown]
                exact sigsNodup_insertM hm
                  (nodup_append_singleton (sigsNodup_lookup hm hreq) hsig)
            · unfold PropertyToken.sign_bridge_request
              simp [hop, hreq, hexp, hsig, hq]
              exact sigsNodup_insertM hm
                (nodup_append_singleton (sigsNodup_lookup hm hreq) hsig)
  · unfold PropertyToken.sign_bridge_request
    simpa [hop] using hm

theorem initiate_preserves_nodup_bridge (s : PropertyBridge)
    (caller bn token dest recip req : Nat) (to_ : Option Nat)
    (md : PropertyMetadata) (hm : sigsNodup s.bridge_requests) :
    sigsNodup (s.initiate_bridge_multisig caller bn token dest recip req to_ md).2.bridge_requests := by
  unfold PropertyBridge.initiate_bridge_multisig
  repeat' split
  all_goals first
    | simpa using hm
    | exact sigsNodup_insertM hm (by simp)

theorem initiate_preserves_nodup_prop (s : PropertyToken)
    (caller bn token dest recip req : Nat) (to_ : Option Nat)
    (hm : sigsNodup s.bridge_requests) :
    sigsNodup (s.initiate_bridge_multisig caller bn token dest recip req to_).2.bridge_requests := by
  unfold PropertyToken.initiate_bridge_multisig
  repeat' split
  all_goals try simpa using hm
  rcases hprop : lookupM s.token_properties token with _ | pinfo
  · simpa [hprop] using hm
  · simp [hprop]
    exact sigsNodup_insertM hm (by simp)

theorem execute_preserves_nodup_bridge (s : PropertyBridge) (caller ts id : Nat)
    (hm : sigsNodup s.bridge_requests) :
    sigsNodup (s.execute_bridge caller ts id).2.bridge_requests := by
  by_cases hop : caller ∈ s.bridge_operators
  · rcases hreq : lookupM s.bridge_requests id with _ | r
    · unfold PropertyBridge.execute_bridge
      simpa [hop, hreq] using hm
    · by_cases hst : r.status = BridgeOperationStatus.Locked
      · by_cases hsg : r.signatures.length < r.required_signatures
        · unfold PropertyBridge.execute_bridge
          simpa [hop, hreq, hst, hsg] using hm
        · unfold PropertyBridge.execute_bridge
          simp [hop, hreq, hst, hsg]
          exact sigsNodup_insertM hm (by simpa using sigsNodup_lookup hm hreq)
      · unfold PropertyBridge.execute_bridge
        simpa [hop, hreq, hst] using hm
  · unfold PropertyBridge.execute_bridge
    simpa [hop] using hm

theorem execute_preserves_nodup_prop (s : PropertyToken) (caller ts id : Nat)
    (hm : sigsNodup s.bridge_requests) :
    sigsNodup (s.execute_bridge caller ts id).2.bridge_requests := by
  by_cases hop : caller ∈ s.bridge_operators
  · rcases hreq : lookupM s.bridge_requests id with _ | r
    · unfold PropertyToken.execute_bridge
      simpa [hop, hreq] using hm
    · by_cases hst : r.status = BridgeOperationStatus.Locked
      · by_cases hsg : r.signatures.length < r.required_signatures
        · unfold PropertyToken.execute_bridge
          simpa [hop, hreq, hst, hsg] using hm
        · unfold PropertyToken.execute_bridge
          simp [hop, hreq, hst, hsg]
          exact sigsNodup_insertM hm (by simpa using sigsNodup_lookup hm hreq)
      · unfold PropertyToken.execute_bridge
        simpa [hop, hreq, hst] using hm
  · unfold PropertyToken.execute_bridge
    simpa [hop] using hm

theorem recover_preserves_nodup_bridge (s : PropertyBridge) (caller id : Nat)
    (act : RecoveryAction) (hm : sigsNodup s.bridge_requests) :
    sigsNodup (s.recover_failed_bridge caller id act).2.bridge_requests := by
  by_cases hadm : caller ≠ s.admin
  · unfold PropertyBridge.recover_failed_bridge
    simpa [hadm] using hm
  · rcases hreq : lookupM s.bridge_requests id with _ | r
    · unfold PropertyBridge.recover_failed_bridge
      simpa [hadm, hreq] using hm
    · by_cases hc : r.status ≠ BridgeOperationStatus.Failed
          ∧ r.status ≠ BridgeOperationStatus.Expired
      · unfold PropertyBridge.recover_failed_bridge
        simpa [hadm, hreq, hc] using hm
      · cases act
        · unfold PropertyBridge.recover_failed_bridge
          simp [hadm, hreq, hc]
          exact sigsNodup_insertM hm (by simpa using sigsNodup_lookup hm hreq)
        · unfold PropertyBridge.recover_failed_bridge
          simp [hadm, hreq, hc]
          exact sigsNodup_insertM hm (by simpa using sigsNodup_lookup hm hreq)
        · unfold PropertyBridge.recover_failed_bridge
          simp [hadm, hreq, hc]
          exact sigsNodup_insertM hm (by simp)
        · unfold PropertyBridge.recover_failed_bridge
          simp [hadm, hreq, hc]
          exact sigsNodup_insertM hm (by simpa using sigsNodup_lookup hm hreq)

theorem recover_preserves_nodup_prop (s : PropertyToken) (caller id : Nat)
    (act : RecoveryAction) (hm : sigsNodup s.bridge_requests) :
    sigsNodup (s.recover_failed_bridge caller id act).2.bridge_requests := by
  by_cases hadm : caller ≠ s.admin
  · unfold PropertyToken.recover_failed_bridge
    simpa [hadm] using hm
  · rcases hreq : lookupM s.bridge_requests id with _ | r
    · unfold PropertyToken.recover_failed_bridge
      simpa [hadm, hreq] using hm
    · by_cases hc : r.status ≠ BridgeOperationStatus.Failed
          ∧ r.status ≠ BridgeOperationStatus.Expired
      · unfold PropertyToken.recover_failed_bridge
        simpa [hadm, hreq, hc] using hm
      · cases act
        · rcases hto : lookupM s.token_owner r.token_id with _ | ow
          · unfold PropertyToken.recover_failed_bridge
            simp [hadm, hreq, hc, hto]
            exact sigsNodup_insertM hm (by simpa using sigsNodup_lookup hm hreq)
          · by_cases how : ow = 0
            · unfold PropertyToken.recover_failed_bridge PropertyToken.add_token_to_owner
              simp [hadm, hreq, hc, hto, how]
              exact sigsNodup_insertM hm (by simpa using sigsNodup_lookup hm hreq)
            · unfold PropertyToken.recover_failed_bridge
              simp [hadm, hreq, hc, hto, how]
              exact sigsNodup_insertM hm (by simpa using sigsNodup_lookup hm hreq)
        · unfold PropertyToken.recover_failed_bridge
          simp [hadm, hreq, hc]
          exact sigsNodup_insertM hm (by simpa using sigsNodup_lookup hm hreq)
        · unfold PropertyToken.recover_failed_bridge
          simp [hadm, hreq, hc]
          exact sigsNodup_insertM hm (by simp)
        · rcases hto : lookupM s.token_owner r.token_id with _ | ow
          · unfold PropertyToken.recover_failed_bridge
            simp [hadm, hreq, hc, hto]
            exact sigsNodup_insertM hm (by simpa using sigsNodup_lookup hm hreq)
          · by_cases how : ow = 0
            · unfold PropertyToken.recover_failed_bridge PropertyToken.add_token_to_owner
              simp [hadm, hreq, hc, hto, how]
              exact sigsNodup_insertM hm (by simpa using sigsNodup_lookup hm hreq)
            · unfold PropertyToken.recover_failed_bridge
              simp [hadm, hreq, hc, hto, how]
              exact sigsNodup_insertM hm (by simpa using sigsNodup_lookup hm hreq)

theorem register_preserves_nodup_prop (s : PropertyToken) (caller ts : Nat)
    (md : PropertyMetadata) (hm : sigsNodup s.bridge_requests) :
    sigsNodup (s.register_property_with_token caller ts md).2.bridge_requests := by
  unfold PropertyToken.register_property_with_token PropertyToken.add_token_to_owner
  simpa using hm

theorem verify_preserves_nodup_prop (s : PropertyToken) (caller ts token : Nat)
    (st : Bool) (hm : sigsNodup s.bridge_requests) :
    sigsNodup (s.verify_compliance caller ts token st).2.bridge_requests := by
  unfold PropertyToken.verify_compliance
  repeat' split
  all_goals simpa using hm

theorem receive_preserves_nodup_prop (s : PropertyToken)
    (caller ts src orig recip : Nat) (md : PropertyMetadata) (h : BridgeHash)
    (hm : sigsNodup s.bridge_requests) :
    sigsNodup (s.receive_bridged_token caller ts src orig recip md h).2.bridge_requests := by
  by_cases hop : caller ∈ s.bridge_operators
  · by_cases hv : (lookupM s.verified_bridge_hashes h).getD false = true
    · rcases hbt : lookupM s.bridged_tokens (src, orig) with _ | bi
      · unfold PropertyToken.receive_bridged_token PropertyToken.add_token_to_owner
        simpa [hop, hv, hbt] using hm
      · unfold PropertyToken.receive_bridged_token PropertyToken.add_token_to_owner
        simpa [hop, hv, hbt] using hm
    · unfold PropertyToken.receive_bridged_token
      simpa [hop, hv] using hm
  · unfold PropertyToken.receive_bridged_token
    simpa [hop] using hm

theorem burn_preserves_nodup_prop (s : PropertyToken)
    (caller token dest recip : Nat) (hm : sigsNodup s.bridge_requests) :
    sigsNodup (s.burn_bridged_token caller token dest recip).2.bridge_requests := by
  rcases howner : lookupM s.token_owner token with _ | ow
  · unfold PropertyToken.burn_bridged_token
    simpa [howner] using hm
  · by_cases hca : ow ≠ caller
    · unfold PropertyToken.burn_bridged_token
      simpa [howner, hca] using hm
    · rcases hbt : lookupM s.bridged_tokens (dest, token) with _ | bi
      · unfold PropertyToken.burn_bridged_token
        simpa [howner, hca, hbt] using hm
      · by_cases hst : bi.status ≠ BridgingStatus.Completed
        · unfold PropertyToken.burn_bridged_token
          simpa [howner, hca, hbt, hst] using hm
        · by_cases hcnt : (lookupM s.owner_token_count caller).getD 0 = 0
          · unfold PropertyToken.burn_bridged_token PropertyToken.remove_token_from_owner
            simpa [howner, hca, hbt, hst, hcnt] using hm
          · unfold PropertyToken.burn_bridged_token PropertyToken.remove_token_from_owner
            simpa [howner, hca, hbt, hst, hcnt] using hm

theorem addop_preserves_nodup_prop (s : PropertyToken) (caller op : Nat)
    (hm : sigsNodup s.bridge_requests) :
    sigsNodup (s.add_bridge_operator caller op).2.bridge_requests := by
  unfold PropertyToken.add_bridge_operator
  repeat' split
  all_goals simpa using hm

theorem removeop_preserves_nodup_prop (s : PropertyToken) (caller op : Nat)
    (hm : sigsNodup s.bridge_requests) :
    sigsNodup (s.remove_bridge_operator caller op).2.bridge_requests := by
  unfold PropertyToken.remove_bridge_operator
  repeat' split
  all_goals simpa using hm

theorem addop_preserves_nodup_bridge (s : PropertyBridge) (caller op : Nat)
    (hm : sigsNodup s.bridge_requests) :
    sigsNodup (s.add_bridge_operator caller op).2.bridge_requests := by
  unfold PropertyBridge.add_bridge_operator
  repeat' split
  all_goals simpa using hm

theorem ptcommand_preserves_nodup (s : PropertyToken) (c : PTCommand)
    (hm : sigsNodup s.bridge_requests) :
    sigsNodup (PTCommand.apply s c).bridge_requests := by
  cases c
  case register caller ts md => exact register_preserves_nodup_prop s caller ts md hm
  case verifyCompliance caller ts token st =>
    exact verify_preserves_nodup_prop s caller ts token st hm
  case initiate caller bn token dest recip req to_ =>
    exact initiate_preserves_nodup_prop s caller bn token dest recip req to_ hm
  case sign caller bn id ap => exact sign_preserves_nodup_prop s caller bn id ap hm
  case execute caller ts id => exact execute_preserves_nodup_prop s caller ts id hm
  case receive caller ts src orig recip md h =>
    exact receive_preserves_nodup_prop s caller ts src orig recip md h hm
  case burn caller token dest recip =>
    exact burn_preserves_nodup_prop s caller token dest recip hm
  case recover caller id act => exact recover_preserves_nodup_prop s caller id act hm
  case addOperator caller op => exact addop_preserves_nodup_prop s caller op hm
  case removeOperator caller op => exact removeop_preserves_nodup_prop s caller op hm

theorem bridgecommand_preserves_nodup (s : PropertyBridge) (c : BridgeCommand)
    (hm : sigsNodup s.bridge_requests) :
    sigsNodup (BridgeCommand.apply s c).bridge_requests := by
  cases c
  case initiate caller bn token dest recip req to_ md =>
    exact initiate_preserves_nodup_bridge s caller bn token dest recip req to_ md hm
  case sign caller bn id ap => exact sign_preserves_nodup_bridge s caller bn id ap hm
  case execute caller ts id => exact execute_preserves_nodup_bridge s caller ts id hm
  case recover caller id act => exact recover_preserves_nodup_bridge s caller id act hm
  case addOperator caller op => exact addop_preserves_nodup_bridge s caller op hm

theorem pt_run_nodup (deployer : AccountId) (cmds : List PTCommand) :
    sigsNodup (PropertyToken.run deployer cmds).bridge_requests := by
  unfold PropertyToken.run
  have hgen : ∀ (s : PropertyToken), sigsNodup s.bridge_requests →
      sigsNodup (cmds.foldl PTCommand.apply s).bridge_requests := by
    induction cmds with
    | nil => intro s hs; simpa using hs
    | cons c rest ih =>
      intro s hs
      exact ih _ (ptcommand_preserves_nodup s c hs)
  exact hgen _ (by intro p hp; simp [PropertyToken.new] at hp)

theorem bridge_run_nodup (deployer : AccountId) (chains : List ChainId)
    (mn mx to_ gas : Nat) (cmds : List BridgeCommand) :
    sigsNodup (PropertyBridge.run deployer chains mn mx to_ gas cmds).bridge_requests := by
  unfold PropertyBridge.run
  have hgen : ∀ (s : PropertyBridge), sigsNodup s.bridge_requests →
      sigsNodup (cmds.foldl BridgeCommand.apply s).bridge_requests := by
    induction cmds with
    | nil => intro s hs; simpa using hs
    | cons c rest ih =>
      intro s hs
      exact ih _ (bridgecommand_preserves_nodup s c hs)
  exact hgen _ (by intro p hp; simp [PropertyBridge.new] at hp)

/-- **C9.**  No duplicate signers: every message of either contract
preserves the invariant that no stored request's signature list contains an
account twice, and consequently the invariant holds in every state reachable
from a fresh deployment; moreover `sign_bridge_request` rejects a repeated
signer with `AlreadySigned` leaving the state unchanged, and a `RetryBridge`
recovery stores an empty signature list. -/
theorem C9_no_duplicate_signers :
    (∀ (s : PropertyToken) (c : PTCommand),
      sigsNodup s.bridge_requests → sigsNodup (PTCommand.apply s c).bridge_requests) ∧
    (∀ (s : PropertyBridge) (c : BridgeCommand),
      sigsNodup s.bridge_requests → sigsNodup (BridgeCommand.apply s c).bridge_requests) ∧
    (∀ (deployer : AccountId) (cmds : List PTCommand),
      sigsNodup (PropertyToken.run deployer cmds).bridge_requests) ∧
    (∀ (deployer : AccountId) (chains : List ChainId) (mn mx to_ gas : Nat)
        (cmds : List BridgeCommand),
      sigsNodup (PropertyBridge.run deployer chains mn mx to_ gas cmds).bridge_requests) ∧
    (∀ (s : PropertyToken) (caller bn id : Nat) (ap : Bool)
        (r : MultisigBridgeRequest),
      caller ∈ s.bridge_operators →
      lookupM s.bridge_requests id = some r →
      r.expired bn = false →
      caller ∈ r.signatures →
      s.sign_bridge_request caller bn id ap = (.error .AlreadySigned, s)) ∧
    (∀ (s : PropertyToken) (caller id : Nat) (r : MultisigBridgeRequest),
      caller = s.admin →
      lookupM s.bridge_requests id = some r →
      (r.status = BridgeOperationStatus.Failed
        ∨ r.status = BridgeOperationStatus.Expired) →
      ((lookupM (s.recover_failed_bridge caller id RecoveryAction.RetryBridge).2.bridge_requests
          id).map (fun x => x.signatures)) = some []) := by
  refine ⟨ptcommand_preserves_nodup, bridgecommand_preserves_nodup,
    pt_run_nodup, bridge_run_nodup, ?_, ?_⟩
  · intro s caller bn id ap r hop hreq hexp hsig
    unfold PropertyToken.sign_bridge_request
    simp [hop, hreq, hexp, hsig]
  · intro s caller id r hadm hreq hfe
    have hc : ¬ (r.status ≠ BridgeOperationStatus.Failed
        ∧ r.status ≠ BridgeOperationStatus.Expired) := by
      rcases hfe with h | h <;> simp [h]
    unfold PropertyToken.recover_failed_bridge
    simp [hadm, hreq, hc, lookupM_insertM_self]

/-- **C9, witness.**  Concrete instances: the preservation conjunct applied
to the sign step from `ptB2` to `ptB3`, and the `AlreadySigned` conjunct for
operator 1 re-signing request 1 of `ptB2`. -/
theorem C9_witness :
    sigsNodup ptB2.bridge_requests ∧
    sigsNodup (PTCommand.apply ptB2 (PTCommand.sign 2 0 1 true)).bridge_requests ∧
    (1 : AccountId) ∈
      ({ request_id := 1, token_id := 1, source_chain := 1, destination_chain := 2,
         sender := 5, recipient := 9, required_signatures := 2, signatures := [1],
         created_at := 0, expires_at := none, status := BridgeOperationStatus.Pending,
         metadata := sampleMetadata } : MultisigBridgeRequest).signatures ∧
    ptB2.sign_bridge_request 1 0 1 true = (.error .AlreadySigned, ptB2) :=
  ⟨by decide,
    C9_no_duplicate_signers.1 ptB2 (PTCommand.sign 2 0 1 true) (by decide),
    by decide,
    C9_no_duplicate_signers.2.2.2.2.1 ptB2 1 0 1 true
      { request_id := 1, token_id := 1, source_chain := 1, destination_chain := 2,
        sender := 5, recipient := 9, required_signatures := 2, signatures := [1],
        created_at := 0, expires_at := none, status := BridgeOperationStatus.Pending,
        metadata := sampleMetadata }
      (by decide) (by decide) (by decide) (by decide)⟩
